import Mathlib

/-!
Verification development for the "Masquerade Panic" pursuit game
(src/main.cpp, src/GameState.h, src/Entity.h, src/Utils.h).

The simulation core is embedded shallowly over the rationals:
every float becomes a `Rat`, every per-tick mutation becomes a pure
state-to-state function, and the external raylib collaborators
(input polling, randomness, screen projection) become explicit
oracle parameters, matching the spec's external-interface section.
-/

namespace Masquerade

/-- 2D vector of rationals, modelling raylib's `Vector2`. -/
structure Vec where
  x : ℚ
  y : ℚ
deriving DecidableEq, Repr

/-- Game constants from GameState.h. -/
def MAP_WIDTH : ℚ := 2000

def MAP_HEIGHT : ℚ := 2000

def PLAYER_SPEED : ℚ := 200

def CAMERA_SMOOTHING : ℚ := 5

def NPC_COUNT : ℕ := 50

def NPC_SPEED : ℚ := 50

def NPC_WANDER_MIN_TIME : ℚ := 1

def NPC_WANDER_MAX_TIME : ℚ := 3

def KILLER_BASE_SPEED : ℚ := 70

def KILLER_MIN_SPAWN_DISTANCE : ℚ := 400

def EXIT_DOOR_WIDTH : ℚ := 60

def EXIT_DOOR_HEIGHT : ℚ := 100

def EXIT_DOOR_MIN_SPAWN_DISTANCE : ℚ := 800

def GAME_MAX_TIME : ℚ := 30

def FLASHLIGHT_MAX_DURATION : ℚ := 3

def FLASHLIGHT_COOLDOWN : ℚ := 3

def KILLER_SEARCH_SPEED : ℚ := 3/2

def KILLER_SEARCH_ARRIVAL_THRESHOLD : ℚ := 20

def PLAYER_COLLISION_RADIUS : ℚ := 15

def KILLER_COLLISION_RADIUS : ℚ := 15

def JUMPSCARE_DURATION : ℚ := 3/2

def JUMPSCARE_ZOOM_TARGET : ℚ := 3

def RESTART_DELAY : ℚ := 2

/-- Model of C `sqrtf` on rationals: exact on every rational whose
numerator and denominator are perfect squares (these are the only inputs
the claims below exercise), floor-of-square-root approximate elsewhere,
mirroring that `sqrtf` itself is approximate on non-squares. -/
def sqrtQ (q : ℚ) : ℚ :=
  if q ≤ 0 then 0
  else (Nat.sqrt q.num.toNat : ℚ) / (Nat.sqrt q.den : ℚ)

/-- Model of C `powf`: exact when the exponent is a natural number
(the only exponents any claim evaluates); 0 on other exponents, where
`powf` is irrational and no theorem below depends on the value. -/
def powQ (b e : ℚ) : ℚ :=
  if e.den = 1 ∧ 0 ≤ e.num then b ^ e.num.toNat else 0

/-- raymath `Clamp`. -/
def Clamp (value minv maxv : ℚ) : ℚ :=
  let result := if value < minv then minv else value
  if maxv < result then maxv else result

/-- raymath `Lerp`. -/
def Lerp (a b t : ℚ) : ℚ := a + t * (b - a)

/-- raymath `Vector2Length`: square root of the squared norm. -/
def Vector2Length (v : Vec) : ℚ := sqrtQ (v.x * v.x + v.y * v.y)

/-- raymath `Vector2Subtract`. -/
def Vector2Subtract (a b : Vec) : Vec := ⟨a.x - b.x, a.y - b.y⟩

/-- raymath `Vector2Scale`. -/
def Vector2Scale (v : Vec) (s : ℚ) : Vec := ⟨v.x * s, v.y * s⟩

/-- Utils.h `Distance` (= raymath `Vector2Distance`). -/
def Distance (a b : Vec) : ℚ :=
  sqrtQ ((b.x - a.x) * (b.x - a.x) + (b.y - a.y) * (b.y - a.y))

/-- Utils.h `DistanceSquared`. -/
def DistanceSquared (a b : Vec) : ℚ :=
  (b.x - a.x) * (b.x - a.x) + (b.y - a.y) * (b.y - a.y)

/-- Utils.h `NormalizeSafe`: returns the zero vector when the length is
not positive, otherwise scales by the reciprocal length. -/
def NormalizeSafe (v : Vec) : Vec :=
  let length := Vector2Length v
  if 0 < length then Vector2Scale v (1 / length) else ⟨0, 0⟩

/-- Utils.h `DirectionTo`. -/
def DirectionTo (f t : Vec) : Vec := NormalizeSafe (Vector2Subtract t f)

/-- Utils.h `ClampPosition`. -/
def ClampPosition (pos : Vec) (minX minY maxX maxY : ℚ) : Vec :=
  ⟨Clamp pos.x minX maxX, Clamp pos.y minY maxY⟩

/-- Utils.h `RandomFloat`, with raylib's `GetRandomValue(0, 10000)` draw
supplied as the oracle argument `g` (external randomness source). -/
def RandomFloat (minv maxv : ℚ) (g : ℕ) : ℚ :=
  minv + (g : ℚ) / 10000 * (maxv - minv)

/-- Modelled from the spec: raylib `CheckCollisionCircles` (not under
src/) reports overlap of two circles, i.e. that the centre distance is
at most the radius sum; stated squared, which is exact over ℚ. -/
def CheckCollisionCircles (c1 : Vec) (r1 : ℚ) (c2 : Vec) (r2 : ℚ) : Bool :=
  decide (DistanceSquared c1 c2 ≤ (r1 + r2) * (r1 + r2))

/-- Axis-aligned rectangle, modelling raylib `Rectangle`. -/
structure Rect where
  x : ℚ
  y : ℚ
  width : ℚ
  height : ℚ
deriving DecidableEq, Repr

/-- Modelled from the spec: raylib `CheckCollisionPointRec` (not under
src/) reports that the point lies inside the rectangle. -/
def CheckCollisionPointRec (p : Vec) (r : Rect) : Bool :=
  decide (r.x ≤ p.x ∧ p.x ≤ r.x + r.width ∧ r.y ≤ p.y ∧ p.y ≤ r.y + r.height)

/-- Entity.h entity-type tags. -/
inductive EntityType where
  | ENTITY_PLAYER
  | ENTITY_NPC
  | ENTITY_KILLER
  | ENTITY_EXIT_DOOR
deriving DecidableEq, Repr

export EntityType (ENTITY_PLAYER ENTITY_NPC ENTITY_KILLER ENTITY_EXIT_DOOR)

/-- Entity.h `Entity`. -/
structure Entity where
  pos : Vec
  velocity : Vec
  type : EntityType
  active : Bool
  hasMask : Bool
  wanderTimer : ℚ
deriving DecidableEq, Repr

/-- Entity.h `CreateEntity`. -/
def CreateEntity (position : Vec) (entityType : EntityType) : Entity :=
  { pos := position
    velocity := ⟨0, 0⟩
    type := entityType
    active := true
    hasMask := entityType = ENTITY_NPC
    wanderTimer := 0 }

/-- GameState.h killer AI states (`KillerState`). -/
inductive KillerState where
  | KILLER_STATE_NORMAL
  | KILLER_STATE_HUNT
  | KILLER_STATE_SEARCH
deriving DecidableEq, Repr

export KillerState (KILLER_STATE_NORMAL KILLER_STATE_HUNT KILLER_STATE_SEARCH)

/-- GameState.h `KillerAIState`. -/
structure KillerAIState where
  state : KillerState
  lastKnownPlayerPos : Vec
  flashlightOnTime : ℚ
  wasFlashlightOn : Bool
deriving DecidableEq, Repr

/-- raylib `Camera2D` (target/offset/rotation/zoom). -/
structure Camera2D where
  target : Vec
  offset : Vec
  rotation : ℚ
  zoom : ℚ
deriving DecidableEq, Repr

/-- GameState.h `GameState`; the render-texture and screen-tag fields are
presentation-only and carry no simulation state, so they are omitted. -/
structure GameState where
  timer : ℚ
  gameOver : Bool
  gameWon : Bool
  entities : List Entity
  camera : Camera2D
  playerIndex : Int
  killerIndex : Int
  exitDoorIndex : Int
  flashlightOn : Bool
  mouseWorldPos : Vec
  flashlightUsageTime : ℚ
  flashlightCooldownTime : ℚ
  flashlightAvailable : Bool
  killerAI : KillerAIState
  jumpscareActive : Bool
  jumpscareTimer : ℚ
  jumpscareZoom : ℚ
  restartDelayTimer : ℚ
  canRestart : Bool
deriving DecidableEq, Repr

/-- Index lookup shared by GameState.h `GetPlayer`/`GetKiller`/
`GetExitDoor`: a valid index (`0 <= i && i < size`) yields the entity,
anything else yields the C++ null pointer, modelled as `none`. -/
def getEntity (es : List Entity) (i : Int) : Option Entity :=
  if 0 ≤ i then es[i.toNat]? else none

/-- GameState.h `GetPlayer`. -/
def GetPlayer (s : GameState) : Option Entity := getEntity s.entities s.playerIndex

/-- GameState.h `GetKiller`. -/
def GetKiller (s : GameState) : Option Entity := getEntity s.entities s.killerIndex

/-- GameState.h `GetExitDoor`. -/
def GetExitDoor (s : GameState) : Option Entity := getEntity s.entities s.exitDoorIndex

/-- Writing back through a role pointer obtained from `getEntity`:
`List.set` is a no-op outside the list, matching that the source only
writes through successfully obtained pointers. -/
def setEntity (es : List Entity) (i : Int) (e : Entity) : List Entity :=
  if 0 ≤ i then es.set i.toNat e else es

/-- Per-tick external input intent, matching the spec's input-source
interface: the four movement directions (W/UP, S/DOWN, A/LEFT, D/RIGHT
pairs collapsed, as `UpdatePlayer` ORs them), the flashlight intent
(left mouse button), the restart request (ENTER or SPACE), and the
mouse position already projected to world coordinates (the raylib
screen-to-world projection is a presentation collaborator). -/
structure Input where
  up : Bool
  down : Bool
  left : Bool
  right : Bool
  mouseDown : Bool
  restartPressed : Bool
  mouseWorldPos : Vec

/-- One random draw consumed by an expired decoy in `UpdateNPCs`:
`RandomVelocity(NPC_SPEED)` is external raylib randomness built from
cosf/sinf, so the drawn velocity is supplied directly as an oracle
value, and the `RandomFloat(NPC_WANDER_MIN_TIME, NPC_WANDER_MAX_TIME)`
draw is supplied through its `GetRandomValue` integer `gt`. -/
structure NPCRand where
  vel : Vec
  gt : ℕ

/-- Oracle data for one decoy spawned by `InitGame`: the two
`GetRandomValue(0, 10000)` draws behind `RandomPosition`, the draw
behind the staggered initial wander timer, and the `RandomVelocity`
outcome. -/
structure NPCInit where
  gx : ℕ
  gy : ℕ
  gt : ℕ
  vel : Vec

/-- Oracle data for one `InitGame` call. The killer and exit-door
rejection-sampling loops call external raylib randomness until their
distance postconditions hold, so their final accepted positions are
supplied directly. -/
structure InitRand where
  npc : ℕ → NPCInit
  killerPos : Vec
  exitPos : Vec

/-- main.cpp `InitGame`: reset round fields, spawn the player at the
arena centre, `NPC_COUNT` decoys at oracle positions with staggered
timers and oracle velocities, then the killer and the exit door at
their oracle (rejection-accepted) positions, recording role indices.
`InitGame` does not touch `killerAI` (the source never resets it). -/
def InitGame (s : GameState) (r : InitRand) : GameState :=
  let playerPos : Vec := ⟨MAP_WIDTH / 2, MAP_HEIGHT / 2⟩
  let player := CreateEntity playerPos ENTITY_PLAYER
  let npcs := (List.range NPC_COUNT).map (fun i =>
    let ri := r.npc i
    let npcPos : Vec := ⟨RandomFloat 50 (MAP_WIDTH - 50) ri.gx,
                         RandomFloat 50 (MAP_HEIGHT - 50) ri.gy⟩
    let npc := CreateEntity npcPos ENTITY_NPC
    { npc with wanderTimer := RandomFloat 0 NPC_WANDER_MAX_TIME ri.gt
               velocity := ri.vel })
  let killer := CreateEntity r.killerPos ENTITY_KILLER
  let exitDoor := CreateEntity r.exitPos ENTITY_EXIT_DOOR
  let es := player :: npcs ++ [killer, exitDoor]
  { s with
    entities := es
    timer := GAME_MAX_TIME
    gameOver := false
    gameWon := false
    jumpscareActive := false
    jumpscareTimer := 0
    jumpscareZoom := 1
    camera := { s.camera with zoom := 1, target := playerPos }
    restartDelayTimer := 0
    canRestart := false
    flashlightOn := false
    flashlightUsageTime := 0
    flashlightCooldownTime := 0
    flashlightAvailable := true
    playerIndex := 0
    killerIndex := (es.length : Int) - 2
    exitDoorIndex := (es.length : Int) - 1 }

/-- The WASD block of main.cpp `UpdatePlayer`: reset the velocity to
zero, then apply the four key checks as sequential assignments (later
assignments overwrite earlier ones on the same axis, exactly as in the
source: S after W, D after A). This is the pre-normalization intent
velocity. -/
def resolveInputVelocity (inp : Input) : Vec :=
  let v0 : Vec := ⟨0, 0⟩
  let v1 := if inp.up then { v0 with y := -1 } else v0
  let v2 := if inp.down then { v1 with y := 1 } else v1
  let v3 := if inp.left then { v2 with x := -1 } else v2
  let v4 := if inp.right then { v3 with x := 1 } else v3
  v4

/-- Body of main.cpp `UpdatePlayer` acting on the player entity: the
WASD block (`resolveInputVelocity`), then normalize, integrate, clamp
to map bounds. -/
def movePlayer (player : Entity) (inp : Input) (deltaTime : ℚ) : Entity :=
  let vel := NormalizeSafe (resolveInputVelocity inp)
  let pos : Vec := ⟨player.pos.x + vel.x * PLAYER_SPEED * deltaTime,
                    player.pos.y + vel.y * PLAYER_SPEED * deltaTime⟩
  let pos := ClampPosition pos 0 0 MAP_WIDTH MAP_HEIGHT
  { player with velocity := vel, pos := pos }

/-- main.cpp `UpdatePlayer`: guard on the player role, then apply
`movePlayer` in place. -/
def UpdatePlayer (s : GameState) (inp : Input) (deltaTime : ℚ) : GameState :=
  match GetPlayer s with
  | none => s
  | some player =>
    if player.active = false then s else
    { s with entities := setEntity s.entities s.playerIndex (movePlayer player inp deltaTime) }

/-- main.cpp `UpdateNPCs` loop body, wander-timer phase: count the
timer down; on expiry redraw the velocity and a new timer in the
configured range. -/
def npcWanderStep (r : NPCRand) (deltaTime : ℚ) (e : Entity) : Entity :=
  let e := { e with wanderTimer := e.wanderTimer - deltaTime }
  if e.wanderTimer ≤ 0 then
    { e with velocity := r.vel
             wanderTimer := RandomFloat NPC_WANDER_MIN_TIME NPC_WANDER_MAX_TIME r.gt }
  else e

/-- main.cpp `UpdateNPCs` loop body, integration phase. -/
def npcMoveStep (deltaTime : ℚ) (e : Entity) : Entity :=
  { e with pos := ⟨e.pos.x + e.velocity.x * deltaTime,
                   e.pos.y + e.velocity.y * deltaTime⟩ }

/-- main.cpp `UpdateNPCs` loop body, horizontal bounce: reflect the
velocity and clamp the coordinate when the x position leaves the inset
bounds. -/
def npcBounceX (e : Entity) : Entity :=
  if e.pos.x < 50 ∨ MAP_WIDTH - 50 < e.pos.x then
    { e with velocity := { e.velocity with x := -e.velocity.x }
             pos := { e.pos with x := Clamp e.pos.x 50 (MAP_WIDTH - 50) } }
  else e

/-- main.cpp `UpdateNPCs` loop body, vertical bounce. -/
def npcBounceY (e : Entity) : Entity :=
  if e.pos.y < 50 ∨ MAP_HEIGHT - 50 < e.pos.y then
    { e with velocity := { e.velocity with y := -e.velocity.y }
             pos := { e.pos with y := Clamp e.pos.y 50 (MAP_HEIGHT - 50) } }
  else e

/-- Body of the main.cpp `UpdateNPCs` loop for one entity: non-decoys
and inactive entities are skipped; otherwise the wander-timer phase,
the integration phase, and the two per-axis bounce phases run in the
source order. -/
def updateNPCEntity (r : NPCRand) (deltaTime : ℚ) (e : Entity) : Entity :=
  if e.type ≠ ENTITY_NPC ∨ e.active = false then e else
  npcBounceY (npcBounceX (npcMoveStep deltaTime (npcWanderStep r deltaTime e)))

/-- The main.cpp `UpdateNPCs` range-for, with one oracle draw per
entity slot. -/
def updateNPCList (rnd : ℕ → NPCRand) (deltaTime : ℚ) : ℕ → List Entity → List Entity
  | _, [] => []
  | i, e :: rest =>
      updateNPCEntity (rnd i) deltaTime e :: updateNPCList rnd deltaTime (i + 1) rest

/-- main.cpp `UpdateNPCs`. -/
def UpdateNPCs (s : GameState) (rnd : ℕ → NPCRand) (deltaTime : ℚ) : GameState :=
  { s with entities := updateNPCList rnd deltaTime 0 s.entities }

/-- main.cpp `UpdateFlashlight`: record the previous on-flag for edge
detection, run the cooldown countdown, then the three-way intent branch
(on with duration limit / early release / off), then store the mouse
world position. -/
def UpdateFlashlight (s : GameState) (wantFlashlight : Bool) (mouseWorld : Vec)
    (deltaTime : ℚ) : GameState :=
  let s := { s with killerAI := { s.killerAI with wasFlashlightOn := s.flashlightOn } }
  let s :=
    if 0 < s.flashlightCooldownTime then
      let s := { s with flashlightCooldownTime := s.flashlightCooldownTime - deltaTime }
      if s.flashlightCooldownTime ≤ 0 then
        { s with flashlightCooldownTime := 0, flashlightAvailable := true }
      else s
    else s
  let s :=
    if wantFlashlight && s.flashlightAvailable then
      let s := { s with flashlightOn := true
                        flashlightUsageTime := s.flashlightUsageTime + deltaTime }
      if FLASHLIGHT_MAX_DURATION ≤ s.flashlightUsageTime then
        { s with flashlightOn := false
                 flashlightAvailable := false
                 flashlightCooldownTime := FLASHLIGHT_COOLDOWN
                 flashlightUsageTime := 0 }
      else s
    else if !wantFlashlight && s.flashlightOn then
      { s with flashlightOn := false
               flashlightAvailable := false
               flashlightCooldownTime := FLASHLIGHT_COOLDOWN
               flashlightUsageTime := 0 }
    else
      { s with flashlightOn := false }
  { s with mouseWorldPos := mouseWorld }

/-- main.cpp `GetKillerSpeedMultiplier`. -/
def GetKillerSpeedMultiplier (s : GameState) : ℚ :=
  match s.killerAI.state with
  | KILLER_STATE_HUNT => 3
  | KILLER_STATE_SEARCH => KILLER_SEARCH_SPEED
  | KILLER_STATE_NORMAL => 1

/-- main.cpp `UpdateKillerAI`: flashlight edge detection drives the
Normal/Hunt/Search transitions, then the Hunt on-time accumulator
advances while the flashlight stays on. -/
def UpdateKillerAI (s : GameState) (deltaTime : ℚ) : GameState :=
  match GetPlayer s with
  | none => s
  | some player =>
    let flashlightJustTurnedOn := s.flashlightOn && !s.killerAI.wasFlashlightOn
    let flashlightJustTurnedOff := !s.flashlightOn && s.killerAI.wasFlashlightOn
    let ai := s.killerAI
    let ai :=
      if flashlightJustTurnedOn then
        { ai with state := KILLER_STATE_HUNT, flashlightOnTime := 0 }
      else if flashlightJustTurnedOff ∧ ai.state = KILLER_STATE_HUNT then
        { ai with state := KILLER_STATE_SEARCH, lastKnownPlayerPos := player.pos }
      else ai
    let ai :=
      if ai.state = KILLER_STATE_HUNT ∧ s.flashlightOn then
        { ai with flashlightOnTime := ai.flashlightOnTime + deltaTime }
      else ai
    { s with killerAI := ai }

/-- main.cpp `UpdateKiller` lines 285-288 factored: exponential
time-based speed scaling `powf(1.05f, elapsedTime)` with
`elapsedTime = GAME_MAX_TIME - state.timer`. -/
def killerTimeSpeedMultiplier (s : GameState) : ℚ :=
  powQ (105/100) (GAME_MAX_TIME - s.timer)

/-- main.cpp `UpdateKiller` lines 291-293 factored: the killer's final
speed, base speed times time scaling times the AI-state multiplier. -/
def killerCurrentSpeed (s : GameState) : ℚ :=
  KILLER_BASE_SPEED * killerTimeSpeedMultiplier s * GetKillerSpeedMultiplier s

/-- main.cpp `UpdateKiller`: guard on both roles, run the AI state
machine, pick the state-dependent target (with the Search arrival
transition back to Normal), then integrate the killer along the
direction to target at `killerCurrentSpeed` and clamp to the map. -/
def UpdateKiller (s : GameState) (deltaTime : ℚ) : GameState :=
  match GetKiller s, GetPlayer s with
  | some killer, some player =>
    if killer.active = false ∨ player.active = false then s else
    let s := UpdateKillerAI s deltaTime
    let ai := s.killerAI
    let arrived :=
      Distance killer.pos ai.lastKnownPlayerPos < KILLER_SEARCH_ARRIVAL_THRESHOLD
    let ai :=
      if ai.state = KILLER_STATE_SEARCH ∧ arrived then
        { ai with state := KILLER_STATE_NORMAL }
      else ai
    let targetPos :=
      match s.killerAI.state with
      | KILLER_STATE_HUNT => player.pos
      | KILLER_STATE_SEARCH => s.killerAI.lastKnownPlayerPos
      | KILLER_STATE_NORMAL => player.pos
    let s := { s with killerAI := ai }
    let direction := DirectionTo killer.pos targetPos
    let currentSpeed := killerCurrentSpeed s
    let killer := { killer with
      velocity := ⟨direction.x * currentSpeed, direction.y * currentSpeed⟩ }
    let killer := { killer with
      pos := ⟨killer.pos.x + killer.velocity.x * deltaTime,
              killer.pos.y + killer.velocity.y * deltaTime⟩ }
    let killer := { killer with pos := ClampPosition killer.pos 0 0 MAP_WIDTH MAP_HEIGHT }
    { s with entities := setEntity s.entities s.killerIndex killer }
  | _, _ => s

/-- main.cpp `UpdateCamera`: lerp the follow target toward the player
and clamp the target so the viewport stays inside the arena. -/
def UpdateCamera (s : GameState) (deltaTime : ℚ) : GameState :=
  match GetPlayer s with
  | none => s
  | some player =>
    let lerpFactor := Clamp (CAMERA_SMOOTHING * deltaTime) 0 1
    let target : Vec := ⟨Lerp s.camera.target.x player.pos.x lerpFactor,
                         Lerp s.camera.target.y player.pos.y lerpFactor⟩
    let halfScreenWidth := s.camera.offset.x / s.camera.zoom
    let halfScreenHeight := s.camera.offset.y / s.camera.zoom
    let target : Vec := ⟨Clamp target.x halfScreenWidth (MAP_WIDTH - halfScreenWidth),
                         Clamp target.y halfScreenHeight (MAP_HEIGHT - halfScreenHeight)⟩
    { s with camera := { s.camera with target := target } }

/-- main.cpp `UpdateTimer`: countdown with clamp-at-zero, setting
`gameWon` on the tick that reaches or crosses zero. -/
def UpdateTimer (s : GameState) (deltaTime : ℚ) : GameState :=
  if 0 < s.timer then
    let s := { s with timer := s.timer - deltaTime }
    if s.timer ≤ 0 then { s with timer := 0, gameWon := true } else s
  else s

/-- main.cpp `CheckPlayerKillerCollision`. -/
def CheckPlayerKillerCollision (s : GameState) : GameState :=
  match GetPlayer s, GetKiller s with
  | some player, some killer =>
    if player.active = false ∨ killer.active = false then s else
    if CheckCollisionCircles player.pos PLAYER_COLLISION_RADIUS
        killer.pos KILLER_COLLISION_RADIUS then
      { s with gameOver := true, jumpscareActive := true, jumpscareTimer := 0 }
    else s
  | _, _ => s

/-- main.cpp `CheckPlayerExitCollision`. -/
def CheckPlayerExitCollision (s : GameState) : GameState :=
  match GetPlayer s, GetExitDoor s with
  | some player, some exitDoor =>
    if player.active = false ∨ exitDoor.active = false then s else
    let exitRect : Rect := ⟨exitDoor.pos.x - EXIT_DOOR_WIDTH / 2,
                            exitDoor.pos.y - EXIT_DOOR_HEIGHT / 2,
                            EXIT_DOOR_WIDTH, EXIT_DOOR_HEIGHT⟩
    if CheckCollisionPointRec player.pos exitRect then
      { s with gameWon := true }
    else s
  | _, _ => s

/-- main.cpp `UpdateJumpscare`: advance the jumpscare timer, lerp zoom
and camera target toward the killer, deactivate after the duration. -/
def UpdateJumpscare (s : GameState) (deltaTime : ℚ) : GameState :=
  if s.jumpscareActive = false then s else
  match GetKiller s with
  | none => s
  | some killer =>
    let s := { s with jumpscareTimer := s.jumpscareTimer + deltaTime }
    let progress := Clamp (s.jumpscareTimer / JUMPSCARE_DURATION) 0 1
    let zoom := Lerp 1 JUMPSCARE_ZOOM_TARGET progress
    let s := { s with jumpscareZoom := zoom
                      camera := { s.camera with
                        zoom := zoom
                        target := ⟨Lerp s.camera.target.x killer.pos.x (2/10),
                                   Lerp s.camera.target.y killer.pos.y (2/10)⟩ } }
    if JUMPSCARE_DURATION ≤ s.jumpscareTimer then
      { s with jumpscareActive := false }
    else s

/-- main.cpp `UpdateRestartDelay`. -/
def UpdateRestartDelay (s : GameState) (deltaTime : ℚ) : GameState :=
  if s.gameOver = false ∧ s.gameWon = false then s else
  if s.jumpscareActive then s else
  if s.canRestart = false then
    let s := { s with restartDelayTimer := s.restartDelayTimer + deltaTime }
    if RESTART_DELAY ≤ s.restartDelayTimer then { s with canRestart := true } else s
  else s

/-- Oracle bundle consumed by one gameplay frame: the per-decoy wander
draws and the `InitGame` draws used if a restart fires this frame. -/
structure FrameRand where
  npcRand : ℕ → NPCRand
  initRand : InitRand

/-- The gameplay-screen frame body from main.cpp lines 863-890: restart
handling, then either the fixed active-round update sequence
(flashlight, player, decoys, killer, camera, timer, collisions) or the
end-of-round sequence (jumpscare, restart gate). -/
def GameplayFrame (s : GameState) (inp : Input) (rnd : FrameRand)
    (deltaTime : ℚ) : GameState :=
  let s :=
    if (s.gameOver || s.gameWon) && s.canRestart && inp.restartPressed then
      InitGame s rnd.initRand
    else s
  if s.gameOver = false ∧ s.gameWon = false then
    let s := UpdateFlashlight s inp.mouseDown inp.mouseWorldPos deltaTime
    let s := UpdatePlayer s inp deltaTime
    let s := UpdateNPCs s rnd.npcRand deltaTime
    let s := UpdateKiller s deltaTime
    let s := UpdateCamera s deltaTime
    let s := UpdateTimer s deltaTime
    let s := CheckPlayerKillerCollision s
    let s := CheckPlayerExitCollision s
    s
  else
    let s := UpdateJumpscare s deltaTime
    let s := UpdateRestartDelay s deltaTime
    s

/-- The player's current position, when the player role resolves. -/
def playerPosition (s : GameState) : Option Vec := (GetPlayer s).map Entity.pos

/-- The survival timer stays exactly zero under every further sequence
of timer updates. -/
def timerStaysZero (s : GameState) : Prop :=
  ∀ dts : List ℚ, (List.foldl UpdateTimer s dts).timer = 0

/-- The flashlight fields exactly as `InitGame` resets them (main.cpp
lines 27-30). -/
def flashlightInitial (s : GameState) : Prop :=
  s.flashlightOn = false ∧ s.flashlightUsageTime = 0 ∧
  s.flashlightCooldownTime = 0 ∧ s.flashlightAvailable = true

/-- All tick durations of a want-on input sequence are non-negative. -/
def nonnegFlashInputs (l : List (Bool × ℚ)) : Prop := ∀ p ∈ l, 0 ≤ p.2

/-- Fold the flashlight update over a sequence of (want-on, tick
duration) inputs. -/
def runFlashlight (s : GameState) (m : Vec) (l : List (Bool × ℚ)) : GameState :=
  l.foldl (fun s p => UpdateFlashlight s p.1 m p.2) s

/-- Inductive invariant of the flashlight resource: both accumulators
are non-negative, and a running cooldown implies the usage accumulator
has been zeroed and the flashlight marked unavailable. -/
def flashInv (s : GameState) : Prop :=
  0 ≤ s.flashlightUsageTime ∧ 0 ≤ s.flashlightCooldownTime ∧
  (0 < s.flashlightCooldownTime →
    s.flashlightUsageTime = 0 ∧ s.flashlightAvailable = false)

/-- A decoy position inside the inset arena bounds, inclusive. -/
def decoyInBounds (e : Entity) : Prop :=
  50 ≤ e.pos.x ∧ e.pos.x ≤ MAP_WIDTH - 50 ∧ 50 ≤ e.pos.y ∧ e.pos.y ≤ MAP_HEIGHT - 50

/-- Every decoy entity of the state is inside the inset arena bounds. -/
def decoysInBounds (s : GameState) : Prop :=
  ∀ e ∈ s.entities, e.type = ENTITY_NPC → decoyInBounds e

/-- The `GetRandomValue(0, 10000)` postcondition for every decoy
position draw handed to `InitGame`. -/
def boundedInitRand (r : InitRand) : Prop :=
  ∀ i, (r.npc i).gx ≤ 10000 ∧ (r.npc i).gy ≤ 10000

/-- All tick durations of a decoy-wander tick sequence are
non-negative. -/
def nonnegTicks (ticks : List ((ℕ → NPCRand) × ℚ)) : Prop := ∀ t ∈ ticks, 0 ≤ t.2

/-- Fold the decoy-wander update over a sequence of ticks. -/
def runDecoyTicks (s : GameState) (ticks : List ((ℕ → NPCRand) × ℚ)) : GameState :=
  ticks.foldl (fun s t => UpdateNPCs s t.1 t.2) s

/-! Concrete round states and inputs used by the closed witness and
counterexample theorems below. -/

/-- A player entity standing at the arena centre. -/
def playerEnt : Entity := ⟨⟨1000, 1000⟩, ⟨0, 0⟩, ENTITY_PLAYER, true, false, 0⟩

/-- A killer entity standing exactly on the player (caught). -/
def killerEntOnPlayer : Entity := ⟨⟨1000, 1000⟩, ⟨0, 0⟩, ENTITY_KILLER, true, false, 0⟩

/-- A killer entity 900 units west of the arena centre. -/
def killerEntFar : Entity := ⟨⟨100, 1000⟩, ⟨0, 0⟩, ENTITY_KILLER, true, false, 0⟩

/-- An exit-door entity on the west edge, away from the player. -/
def exitEnt : Entity := ⟨⟨30, 50⟩, ⟨0, 0⟩, ENTITY_EXIT_DOOR, true, false, 0⟩

/-- A decoy with a wander timer that does not expire in the witness
ticks. -/
def npcEnt : Entity := ⟨⟨100, 100⟩, ⟨0, 0⟩, ENTITY_NPC, true, true, 100⟩

/-- `npcEnt` after a 30-second wander countdown. -/
def npcEnt70 : Entity := ⟨⟨100, 100⟩, ⟨0, 0⟩, ENTITY_NPC, true, true, 70⟩

/-- The gameplay camera as `InitGame` leaves it for a centred player. -/
def baseCamera : Camera2D := ⟨⟨1000, 1000⟩, ⟨400, 300⟩, 0, 1⟩

/-- A freshly initialised round (flags clear, timer full, flashlight
ready, killer AI in Normal) holding the given entities. -/
def mkRound (es : List Entity) (ki ei : Int) : GameState :=
  { timer := GAME_MAX_TIME, gameOver := false, gameWon := false, entities := es,
    camera := baseCamera, playerIndex := 0, killerIndex := ki, exitDoorIndex := ei,
    flashlightOn := false, mouseWorldPos := ⟨0, 0⟩, flashlightUsageTime := 0,
    flashlightCooldownTime := 0, flashlightAvailable := true,
    killerAI := ⟨KILLER_STATE_NORMAL, ⟨0, 0⟩, 0, false⟩,
    jumpscareActive := false, jumpscareTimer := 0, jumpscareZoom := 1,
    restartDelayTimer := 0, canRestart := false }

/-- Input with no keys, no mouse button, no restart request. -/
def noInput : Input := ⟨false, false, false, false, false, false, ⟨0, 0⟩⟩

/-- Input holding both W and S (both directions of the vertical pair). -/
def wsInput : Input := ⟨true, true, false, false, false, false, ⟨0, 0⟩⟩

/-- Input holding both A and D (both directions of the horizontal
pair). -/
def adInput : Input := ⟨false, false, true, true, false, false, ⟨0, 0⟩⟩

/-- Input holding the flashlight button only. -/
def mouseInput : Input := ⟨false, false, false, false, true, false, ⟨0, 0⟩⟩

/-- A fixed decoy-wander oracle: zero velocity, zero timer draw. -/
def npcRand0 : ℕ → NPCRand := fun _ => ⟨⟨0, 0⟩, 0⟩

/-- A fixed `InitGame` oracle placing the killer and the exit door on
the inset corner and giving every decoy the zero draw. -/
def initRand0 : InitRand := ⟨fun _ => ⟨0, 0, 0, ⟨0, 0⟩⟩, ⟨1500, 1500⟩, ⟨1000, 50⟩⟩

/-- The fixed frame oracle built from `npcRand0` and `initRand0`. -/
def frameRand0 : FrameRand := ⟨npcRand0, initRand0⟩

/-- Round state in which the survival timer is about to expire while
the killer stands on the player: two decoys, then killer and exit. -/
def c1State : GameState :=
  mkRound ([playerEnt, npcEnt, npcEnt, killerEntOnPlayer, exitEnt]) 3 4

/-- `c1State` after the 30-second frame's decoy stage. -/
def c1StateN : GameState :=
  { c1State with entities := [playerEnt, npcEnt70, npcEnt70, killerEntOnPlayer, exitEnt] }

/-- `c1StateN` after the timer stage of that frame. -/
def c1StateT : GameState := { c1StateN with timer := 0, gameWon := true }

/-- `c1StateT` after the killer-collision stage of that frame. -/
def c1StateK : GameState :=
  { c1StateT with gameOver := true, jumpscareActive := true, jumpscareTimer := 0 }

/-- A round that has already been lost (post-jumpscare). -/
def endedState : GameState :=
  { c1State with gameOver := true, jumpscareActive := false, restartDelayTimer := 1 }

/-- Round state for the opposite-key counterexample: player centred,
killer far, flags clear. -/
def c2State : GameState := mkRound ([playerEnt, killerEntFar, exitEnt]) 1 2

/-- Round state ready for a Hunt off-edge: flashlight on, killer AI in
Hunt, killer far from the player. -/
def c5State : GameState :=
  { c2State with flashlightOn := true, flashlightUsageTime := 1,
                 killerAI := ⟨KILLER_STATE_HUNT, ⟨0, 0⟩, 1, true⟩ }

/-- Round state one tick before the flashlight usage limit, in Hunt. -/
def c10State : GameState :=
  { c2State with flashlightOn := true, flashlightUsageTime := 5/2,
                 killerAI := ⟨KILLER_STATE_HUNT, ⟨0, 0⟩, 5/2, true⟩ }

/-- `mouseInput` released (mouse button up), same movement intent. -/
def c10ReleaseInput : Input := { mouseInput with mouseDown := false }

/-! ## Helper lemmas -/

theorem player_ne_npc : ENTITY_PLAYER ≠ ENTITY_NPC := by decide

theorem killer_ne_npc : ENTITY_KILLER ≠ ENTITY_NPC := by decide

theorem exit_ne_npc : ENTITY_EXIT_DOOR ≠ ENTITY_NPC := by decide

theorem sqrtQ_zero : sqrtQ 0 = 0 := by
  norm_num [sqrtQ]

theorem sqrtQ_one : sqrtQ 1 = 1 := by
  norm_num [sqrtQ]

theorem NormalizeSafe_unitY : NormalizeSafe ⟨0, 1⟩ = ⟨0, 1⟩ := by
  unfold NormalizeSafe Vector2Length
  rw [show (0:ℚ) * 0 + 1 * 1 = 1 by norm_num, sqrtQ_one]
  norm_num [Vector2Scale]

theorem NormalizeSafe_unitX : NormalizeSafe ⟨1, 0⟩ = ⟨1, 0⟩ := by
  unfold NormalizeSafe Vector2Length
  rw [show (1:ℚ) * 1 + 0 * 0 = 1 by norm_num, sqrtQ_one]
  norm_num [Vector2Scale]

theorem resolveInputVelocity_down (inp : Input) (hdn : inp.down = true) :
    (resolveInputVelocity inp).y = 1 := by
  simp only [resolveInputVelocity, hdn, if_true]
  split_ifs <;> rfl

theorem resolveInputVelocity_right (inp : Input) (hr : inp.right = true) :
    (resolveInputVelocity inp).x = 1 := by
  simp only [resolveInputVelocity, hr, if_true]

theorem Clamp_le (x lo hi : ℚ) (h : lo ≤ hi) : lo ≤ Clamp x lo hi ∧ Clamp x lo hi ≤ hi := by
  simp only [Clamp]
  split_ifs <;> constructor <;> linarith

theorem Clamp_eq_self (x lo hi : ℚ) (h1 : lo ≤ x) (h2 : x ≤ hi) : Clamp x lo hi = x := by
  simp only [Clamp]
  split_ifs <;> linarith

theorem getEntity_setEntity_ne (es : List Entity) (i j : Int) (e : Entity)
    (hij : i ≠ j) : getEntity (setEntity es i e) j = getEntity es j := by
  unfold getEntity setEntity
  split_ifs
  all_goals
    first
    | rfl
    | exact List.getElem?_set_ne (by omega)

theorem getEntity_setEntity_self (es : List Entity) (i : Int) (e p : Entity)
    (h : getEntity es i = some p) : getEntity (setEntity es i e) i = some e := by
  unfold getEntity setEntity
  unfold getEntity at h
  split_ifs with h1
  · rw [if_pos h1] at h
    have hlt : i.toNat < es.length := by
      by_contra hge
      rw [List.getElem?_eq_none (by omega)] at h
      exact Option.noConfusion h
    exact List.getElem?_set_eq_of_lt e (by simpa using hlt)
  · rw [if_neg h1] at h
    exact Option.noConfusion h

/-! Stage projection lemmas: which `GameState` fields each per-tick
update stage leaves untouched, read off its definition. -/

theorem UpdateFlashlight_entities (s : GameState) (w : Bool) (m : Vec) (dt : ℚ) :
    (UpdateFlashlight s w m dt).entities = s.entities := by
  simp only [UpdateFlashlight]
  split_ifs <;> rfl

theorem UpdateFlashlight_playerIndex (s : GameState) (w : Bool) (m : Vec) (dt : ℚ) :
    (UpdateFlashlight s w m dt).playerIndex = s.playerIndex := by
  simp only [UpdateFlashlight]
  split_ifs <;> rfl

theorem UpdateFlashlight_killerIndex (s : GameState) (w : Bool) (m : Vec) (dt : ℚ) :
    (UpdateFlashlight s w m dt).killerIndex = s.killerIndex := by
  simp only [UpdateFlashlight]
  split_ifs <;> rfl

theorem UpdateFlashlight_timer (s : GameState) (w : Bool) (m : Vec) (dt : ℚ) :
    (UpdateFlashlight s w m dt).timer = s.timer := by
  simp only [UpdateFlashlight]
  split_ifs <;> rfl

theorem UpdateFlashlight_gameOver (s : GameState) (w : Bool) (m : Vec) (dt : ℚ) :
    (UpdateFlashlight s w m dt).gameOver = s.gameOver := by
  simp only [UpdateFlashlight]
  split_ifs <;> rfl

theorem UpdateFlashlight_gameWon (s : GameState) (w : Bool) (m : Vec) (dt : ℚ) :
    (UpdateFlashlight s w m dt).gameWon = s.gameWon := by
  simp only [UpdateFlashlight]
  split_ifs <;> rfl

theorem UpdateFlashlight_aiState (s : GameState) (w : Bool) (m : Vec) (dt : ℚ) :
    (UpdateFlashlight s w m dt).killerAI.state = s.killerAI.state := by
  simp only [UpdateFlashlight]
  split_ifs <;> rfl

theorem UpdateFlashlight_aiWas (s : GameState) (w : Bool) (m : Vec) (dt : ℚ) :
    (UpdateFlashlight s w m dt).killerAI.wasFlashlightOn = s.flashlightOn := by
  simp only [UpdateFlashlight]
  split_ifs <;> rfl

theorem UpdateFlashlight_GetPlayer (s : GameState) (w : Bool) (m : Vec) (dt : ℚ) :
    GetPlayer (UpdateFlashlight s w m dt) = GetPlayer s := by
  unfold GetPlayer
  rw [UpdateFlashlight_entities, UpdateFlashlight_playerIndex]

theorem UpdateFlashlight_GetKiller (s : GameState) (w : Bool) (m : Vec) (dt : ℚ) :
    GetKiller (UpdateFlashlight s w m dt) = GetKiller s := by
  unfold GetKiller
  rw [UpdateFlashlight_entities, UpdateFlashlight_killerIndex]

/-- Early release of the flashlight (want-on false while on): the tick
turns the light off, makes it unavailable, starts the full cooldown and
zeroes the usage accumulator. -/
theorem UpdateFlashlight_release (s : GameState) (m : Vec) (dt : ℚ)
    (hon : s.flashlightOn = true) :
    (UpdateFlashlight s false m dt).flashlightOn = false ∧
    (UpdateFlashlight s false m dt).flashlightAvailable = false ∧
    (UpdateFlashlight s false m dt).flashlightCooldownTime = FLASHLIGHT_COOLDOWN ∧
    (UpdateFlashlight s false m dt).flashlightUsageTime = 0 := by
  simp only [UpdateFlashlight, hon]
  split_ifs <;> simp_all

/-- Usage-limit timeout while holding the flashlight: same four field
outcomes as an early release, in the same tick. -/
theorem UpdateFlashlight_timeout (s : GameState) (m : Vec) (dt : ℚ)
    (hav : s.flashlightAvailable = true)
    (hmax : FLASHLIGHT_MAX_DURATION ≤ s.flashlightUsageTime + dt) :
    (UpdateFlashlight s true m dt).flashlightOn = false ∧
    (UpdateFlashlight s true m dt).flashlightAvailable = false ∧
    (UpdateFlashlight s true m dt).flashlightCooldownTime = FLASHLIGHT_COOLDOWN ∧
    (UpdateFlashlight s true m dt).flashlightUsageTime = 0 := by
  simp only [UpdateFlashlight, Bool.true_and, hav]
  split_ifs with h1 h2 h3 h3 <;> simp_all

theorem movePlayer_type (p : Entity) (inp : Input) (dt : ℚ) :
    (movePlayer p inp dt).type = p.type := by
  simp only [movePlayer]

theorem movePlayer_active (p : Entity) (inp : Input) (dt : ℚ) :
    (movePlayer p inp dt).active = p.active := by
  simp only [movePlayer]

theorem UpdatePlayer_killerAI (s : GameState) (inp : Input) (dt : ℚ) :
    (UpdatePlayer s inp dt).killerAI = s.killerAI := by
  unfold UpdatePlayer
  split
  · rfl
  · split_ifs <;> rfl

theorem UpdatePlayer_flashlightOn (s : GameState) (inp : Input) (dt : ℚ) :
    (UpdatePlayer s inp dt).flashlightOn = s.flashlightOn := by
  unfold UpdatePlayer
  split
  · rfl
  · split_ifs <;> rfl

theorem UpdatePlayer_playerIndex (s : GameState) (inp : Input) (dt : ℚ) :
    (UpdatePlayer s inp dt).playerIndex = s.playerIndex := by
  unfold UpdatePlayer
  split
  · rfl
  · split_ifs <;> rfl

theorem UpdatePlayer_killerIndex (s : GameState) (inp : Input) (dt : ℚ) :
    (UpdatePlayer s inp dt).killerIndex = s.killerIndex := by
  unfold UpdatePlayer
  split
  · rfl
  · split_ifs <;> rfl

theorem UpdatePlayer_gameOver (s : GameState) (inp : Input) (dt : ℚ) :
    (UpdatePlayer s inp dt).gameOver = s.gameOver := by
  unfold UpdatePlayer
  split
  · rfl
  · split_ifs <;> rfl

theorem UpdatePlayer_gameWon (s : GameState) (inp : Input) (dt : ℚ) :
    (UpdatePlayer s inp dt).gameWon = s.gameWon := by
  unfold UpdatePlayer
  split
  · rfl
  · split_ifs <;> rfl

theorem UpdatePlayer_GetPlayer (s : GameState) (inp : Input) (dt : ℚ) (p : Entity)
    (hp : GetPlayer s = some p) (hpa : p.active = true) :
    GetPlayer (UpdatePlayer s inp dt) = some (movePlayer p inp dt) := by
  unfold UpdatePlayer
  rw [hp]
  simp only [hpa]
  unfold GetPlayer
  exact getEntity_setEntity_self _ _ _ _ hp

theorem UpdatePlayer_GetKiller (s : GameState) (inp : Input) (dt : ℚ)
    (hne : s.playerIndex ≠ s.killerIndex) :
    GetKiller (UpdatePlayer s inp dt) = GetKiller s := by
  unfold UpdatePlayer
  split
  · rfl
  · split_ifs
    · rfl
    · unfold GetKiller
      exact getEntity_setEntity_ne _ _ _ _ hne

theorem updateNPCEntity_skip (r : NPCRand) (dt : ℚ) (e : Entity)
    (h : e.type ≠ ENTITY_NPC) : updateNPCEntity r dt e = e := by
  unfold updateNPCEntity
  rw [if_pos (Or.inl h)]

theorem updateNPCList_getElem (rnd : ℕ → NPCRand) (dt : ℚ) (es : List Entity) :
    ∀ (k j : ℕ), (updateNPCList rnd dt k es)[j]? =
      (es[j]?).map (updateNPCEntity (rnd (k + j)) dt) := by
  induction es with
  | nil => intro k j; simp [updateNPCList]
  | cons e rest ih =>
      intro k j
      cases j with
      | zero => simp [updateNPCList]
      | succ n =>
          simp only [updateNPCList, List.getElem?_cons_succ]
          rw [ih (k + 1) n]
          have h : k + 1 + n = k + (n + 1) := by omega
          rw [h]

theorem UpdateNPCs_getEntity (s : GameState) (rnd : ℕ → NPCRand) (dt : ℚ) (i : Int) :
    getEntity (UpdateNPCs s rnd dt).entities i =
      (getEntity s.entities i).map (updateNPCEntity (rnd i.toNat) dt) := by
  unfold UpdateNPCs getEntity
  split_ifs
  · simpa using updateNPCList_getElem rnd dt s.entities 0 i.toNat
  · rfl

theorem UpdateNPCs_GetPlayer (s : GameState) (rnd : ℕ → NPCRand) (dt : ℚ) (p : Entity)
    (hp : GetPlayer s = some p) (ht : p.type ≠ ENTITY_NPC) :
    GetPlayer (UpdateNPCs s rnd dt) = some p := by
  unfold GetPlayer at hp ⊢
  show getEntity (UpdateNPCs s rnd dt).entities s.playerIndex = some p
  rw [UpdateNPCs_getEntity, hp]
  simp [updateNPCEntity_skip _ _ _ ht]

theorem UpdateNPCs_GetKiller (s : GameState) (rnd : ℕ → NPCRand) (dt : ℚ) (k : Entity)
    (hk : GetKiller s = some k) (ht : k.type ≠ ENTITY_NPC) :
    GetKiller (UpdateNPCs s rnd dt) = some k := by
  unfold GetKiller at hk ⊢
  show getEntity (UpdateNPCs s rnd dt).entities s.killerIndex = some k
  rw [UpdateNPCs_getEntity, hk]
  simp [updateNPCEntity_skip _ _ _ ht]

theorem UpdateKillerAI_entities (s : GameState) (dt : ℚ) :
    (UpdateKillerAI s dt).entities = s.entities := by
  unfold UpdateKillerAI
  split <;> rfl

theorem UpdateKillerAI_playerIndex (s : GameState) (dt : ℚ) :
    (UpdateKillerAI s dt).playerIndex = s.playerIndex := by
  unfold UpdateKillerAI
  split <;> rfl

theorem UpdateKillerAI_killerIndex (s : GameState) (dt : ℚ) :
    (UpdateKillerAI s dt).killerIndex = s.killerIndex := by
  unfold UpdateKillerAI
  split <;> rfl

theorem UpdateKillerAI_timer (s : GameState) (dt : ℚ) :
    (UpdateKillerAI s dt).timer = s.timer := by
  unfold UpdateKillerAI
  split <;> rfl

theorem UpdateKillerAI_gameOver (s : GameState) (dt : ℚ) :
    (UpdateKillerAI s dt).gameOver = s.gameOver := by
  unfold UpdateKillerAI
  split <;> rfl

theorem UpdateKillerAI_gameWon (s : GameState) (dt : ℚ) :
    (UpdateKillerAI s dt).gameWon = s.gameWon := by
  unfold UpdateKillerAI
  split <;> rfl

/-- Flashlight off-edge while in Hunt: `UpdateKillerAI` transitions to
Search and snapshots the player position it was handed this tick. -/
theorem UpdateKillerAI_offEdge (s : GameState) (dt : ℚ) (p : Entity)
    (hp : GetPlayer s = some p)
    (hon : s.flashlightOn = false)
    (hwas : s.killerAI.wasFlashlightOn = true)
    (hst : s.killerAI.state = KILLER_STATE_HUNT) :
    (UpdateKillerAI s dt).killerAI =
      { s.killerAI with state := KILLER_STATE_SEARCH, lastKnownPlayerPos := p.pos } := by
  unfold UpdateKillerAI
  rw [hp]
  simp only [hon, hwas, hst, Bool.not_true, Bool.false_and, Bool.not_false, Bool.true_and]
  simp

theorem UpdateCamera_entities (s : GameState) (dt : ℚ) :
    (UpdateCamera s dt).entities = s.entities := by
  unfold UpdateCamera
  split <;> rfl

theorem UpdateCamera_killerAI (s : GameState) (dt : ℚ) :
    (UpdateCamera s dt).killerAI = s.killerAI := by
  unfold UpdateCamera
  split <;> rfl

theorem UpdateCamera_playerIndex (s : GameState) (dt : ℚ) :
    (UpdateCamera s dt).playerIndex = s.playerIndex := by
  unfold UpdateCamera
  split <;> rfl

theorem UpdateCamera_timer (s : GameState) (dt : ℚ) :
    (UpdateCamera s dt).timer = s.timer := by
  unfold UpdateCamera
  split <;> rfl

theorem UpdateCamera_gameOver (s : GameState) (dt : ℚ) :
    (UpdateCamera s dt).gameOver = s.gameOver := by
  unfold UpdateCamera
  split <;> rfl

theorem UpdateCamera_gameWon (s : GameState) (dt : ℚ) :
    (UpdateCamera s dt).gameWon = s.gameWon := by
  unfold UpdateCamera
  split <;> rfl

theorem UpdateTimer_entities (s : GameState) (dt : ℚ) :
    (UpdateTimer s dt).entities = s.entities := by
  simp only [UpdateTimer]
  split_ifs <;> rfl

theorem UpdateTimer_killerAI (s : GameState) (dt : ℚ) :
    (UpdateTimer s dt).killerAI = s.killerAI := by
  simp only [UpdateTimer]
  split_ifs <;> rfl

theorem UpdateTimer_playerIndex (s : GameState) (dt : ℚ) :
    (UpdateTimer s dt).playerIndex = s.playerIndex := by
  simp only [UpdateTimer]
  split_ifs <;> rfl

theorem UpdateTimer_gameOver (s : GameState) (dt : ℚ) :
    (UpdateTimer s dt).gameOver = s.gameOver := by
  simp only [UpdateTimer]
  split_ifs <;> rfl

theorem CheckPlayerKillerCollision_entities (s : GameState) :
    (CheckPlayerKillerCollision s).entities = s.entities := by
  unfold CheckPlayerKillerCollision
  split <;> try rfl
  split_ifs <;> rfl

theorem CheckPlayerKillerCollision_killerAI (s : GameState) :
    (CheckPlayerKillerCollision s).killerAI = s.killerAI := by
  unfold CheckPlayerKillerCollision
  split <;> try rfl
  split_ifs <;> rfl

theorem CheckPlayerKillerCollision_playerIndex (s : GameState) :
    (CheckPlayerKillerCollision s).playerIndex = s.playerIndex := by
  unfold CheckPlayerKillerCollision
  split <;> try rfl
  split_ifs <;> rfl

theorem CheckPlayerKillerCollision_timer (s : GameState) :
    (CheckPlayerKillerCollision s).timer = s.timer := by
  unfold CheckPlayerKillerCollision
  split <;> try rfl
  split_ifs <;> rfl

theorem CheckPlayerKillerCollision_gameWon (s : GameState) :
    (CheckPlayerKillerCollision s).gameWon = s.gameWon := by
  unfold CheckPlayerKillerCollision
  split <;> try rfl
  split_ifs <;> rfl

theorem CheckPlayerExitCollision_entities (s : GameState) :
    (CheckPlayerExitCollision s).entities = s.entities := by
  unfold CheckPlayerExitCollision
  split <;> try rfl
  dsimp only
  split_ifs <;> rfl

theorem CheckPlayerExitCollision_killerAI (s : GameState) :
    (CheckPlayerExitCollision s).killerAI = s.killerAI := by
  unfold CheckPlayerExitCollision
  split <;> try rfl
  dsimp only
  split_ifs <;> rfl

theorem CheckPlayerExitCollision_playerIndex (s : GameState) :
    (CheckPlayerExitCollision s).playerIndex = s.playerIndex := by
  unfold CheckPlayerExitCollision
  split <;> try rfl
  dsimp only
  split_ifs <;> rfl

theorem CheckPlayerExitCollision_timer (s : GameState) :
    (CheckPlayerExitCollision s).timer = s.timer := by
  unfold CheckPlayerExitCollision
  split <;> try rfl
  dsimp only
  split_ifs <;> rfl

theorem CheckPlayerExitCollision_gameOver (s : GameState) :
    (CheckPlayerExitCollision s).gameOver = s.gameOver := by
  unfold CheckPlayerExitCollision
  split <;> try rfl
  dsimp only
  split_ifs <;> rfl

theorem UpdateJumpscare_entities (s : GameState) (dt : ℚ) :
    (UpdateJumpscare s dt).entities = s.entities := by
  unfold UpdateJumpscare
  split_ifs with h
  · rfl
  · split <;> try rfl
    dsimp only
    split_ifs <;> rfl

theorem UpdateJumpscare_gameOver (s : GameState) (dt : ℚ) :
    (UpdateJumpscare s dt).gameOver = s.gameOver := by
  unfold UpdateJumpscare
  split_ifs with h
  · rfl
  · split <;> try rfl
    dsimp only
    split_ifs <;> rfl

theorem UpdateJumpscare_gameWon (s : GameState) (dt : ℚ) :
    (UpdateJumpscare s dt).gameWon = s.gameWon := by
  unfold UpdateJumpscare
  split_ifs with h
  · rfl
  · split <;> try rfl
    dsimp only
    split_ifs <;> rfl

theorem UpdateRestartDelay_entities (s : GameState) (dt : ℚ) :
    (UpdateRestartDelay s dt).entities = s.entities := by
  unfold UpdateRestartDelay
  dsimp only
  split_ifs <;> rfl

theorem UpdateRestartDelay_gameOver (s : GameState) (dt : ℚ) :
    (UpdateRestartDelay s dt).gameOver = s.gameOver := by
  unfold UpdateRestartDelay
  dsimp only
  split_ifs <;> rfl

theorem UpdateRestartDelay_gameWon (s : GameState) (dt : ℚ) :
    (UpdateRestartDelay s dt).gameWon = s.gameWon := by
  unfold UpdateRestartDelay
  dsimp only
  split_ifs <;> rfl

/-- `UpdateKiller` on a tick whose flashlight update produced an
off-edge while the AI was in Hunt: the killer update (which runs the AI
state machine first) snapshots the player position handed to it, ends
in Search unless the killer is already within the arrival threshold of
that snapshot, and touches no player or round field. -/
theorem UpdateKiller_offEdge (s : GameState) (dt : ℚ) (k p : Entity)
    (hk : GetKiller s = some k) (hp : GetPlayer s = some p)
    (hka : k.active = true) (hpa : p.active = true)
    (hon : s.flashlightOn = false) (hwas : s.killerAI.wasFlashlightOn = true)
    (hst : s.killerAI.state = KILLER_STATE_HUNT)
    (hne : s.playerIndex ≠ s.killerIndex) :
    (UpdateKiller s dt).killerAI.lastKnownPlayerPos = p.pos ∧
    (¬ Distance k.pos p.pos < KILLER_SEARCH_ARRIVAL_THRESHOLD →
      (UpdateKiller s dt).killerAI.state = KILLER_STATE_SEARCH) ∧
    GetPlayer (UpdateKiller s dt) = GetPlayer s ∧
    (UpdateKiller s dt).timer = s.timer ∧
    (UpdateKiller s dt).gameOver = s.gameOver ∧
    (UpdateKiller s dt).gameWon = s.gameWon ∧
    (UpdateKiller s dt).playerIndex = s.playerIndex := by
  have hAI := UpdateKillerAI_offEdge s dt p hp hon hwas hst
  have hent := UpdateKillerAI_entities s dt
  have hpi := UpdateKillerAI_playerIndex s dt
  have hki := UpdateKillerAI_killerIndex s dt
  have hti := UpdateKillerAI_timer s dt
  have hgo := UpdateKillerAI_gameOver s dt
  have hgw := UpdateKillerAI_gameWon s dt
  unfold UpdateKiller
  rw [hk, hp]
  dsimp only
  rw [if_neg (by simp [hka, hpa])]
  dsimp only
  rw [hAI, hent, hpi, hki, hti, hgo, hgw]
  dsimp only
  refine ⟨?_, ?_, ?_, ?_, ?_, ?_, ?_⟩
  · split_ifs <;> rfl
  · intro hfar
    rw [if_neg (fun hand => hfar hand.2)]
  · unfold GetPlayer
    dsimp only
    rw [getEntity_setEntity_ne _ _ _ _ (Ne.symm hne)]
    exact hp
  · rfl
  · rfl
  · rfl
  · rfl

/-- While the round is active, one gameplay frame is exactly the fixed
update sequence of main.cpp lines 873-885. -/
theorem GameplayFrame_active (s : GameState) (inp : Input) (rnd : FrameRand) (dt : ℚ)
    (hgo : s.gameOver = false) (hgw : s.gameWon = false) :
    GameplayFrame s inp rnd dt =
      CheckPlayerExitCollision (CheckPlayerKillerCollision (UpdateTimer (UpdateCamera
        (UpdateKiller (UpdateNPCs (UpdatePlayer
          (UpdateFlashlight s inp.mouseDown inp.mouseWorldPos dt) inp dt)
            rnd.npcRand dt) dt) dt) dt)) := by
  simp [GameplayFrame, hgo, hgw]

/-- Once the round has ended, one gameplay frame with no restart request
is exactly the end-of-round sequence of main.cpp lines 887-890. -/
theorem GameplayFrame_ended (s : GameState) (inp : Input) (rnd : FrameRand) (dt : ℚ)
    (hEnd : s.gameOver = true ∨ s.gameWon = true)
    (hnr : inp.restartPressed = false) :
    GameplayFrame s inp rnd dt = UpdateRestartDelay (UpdateJumpscare s dt) dt := by
  rcases hEnd with h | h <;>
    simp [GameplayFrame, h, hnr, UpdateJumpscare_gameOver, UpdateJumpscare_gameWon]

/-- An automatic usage-limit timeout and a manual release produce the
same flashlight update outcome: the flashlight stage is the only stage
reading the flashlight intent, and both paths write the same fields. -/
theorem UpdateFlashlight_timeout_eq_release (s : GameState) (m : Vec) (dt : ℚ)
    (hon : s.flashlightOn = true) (hav : s.flashlightAvailable = true)
    (hmax : FLASHLIGHT_MAX_DURATION ≤ s.flashlightUsageTime + dt) :
    UpdateFlashlight s true m dt = UpdateFlashlight s false m dt := by
  simp only [UpdateFlashlight, hon, hav, Bool.true_and, Bool.false_and, Bool.not_false,
    Bool.not_true]
  split_ifs <;> simp_all

/-- `UpdatePlayer` reads only the four movement-intent bits of the
input. -/
theorem UpdatePlayer_input_eq (s : GameState) (inp inp2 : Input) (dt : ℚ)
    (h1 : inp.up = inp2.up) (h2 : inp.down = inp2.down)
    (h3 : inp.left = inp2.left) (h4 : inp.right = inp2.right) :
    UpdatePlayer s inp dt = UpdatePlayer s inp2 dt := by
  unfold UpdatePlayer movePlayer resolveInputVelocity
  rw [h1, h2, h3, h4]

theorem UpdateNPCs_killerAI (s : GameState) (rnd : ℕ → NPCRand) (dt : ℚ) :
    (UpdateNPCs s rnd dt).killerAI = s.killerAI := rfl

theorem UpdateNPCs_flashlightOn (s : GameState) (rnd : ℕ → NPCRand) (dt : ℚ) :
    (UpdateNPCs s rnd dt).flashlightOn = s.flashlightOn := rfl

theorem UpdateNPCs_playerIndex (s : GameState) (rnd : ℕ → NPCRand) (dt : ℚ) :
    (UpdateNPCs s rnd dt).playerIndex = s.playerIndex := rfl

theorem UpdateNPCs_killerIndex (s : GameState) (rnd : ℕ → NPCRand) (dt : ℚ) :
    (UpdateNPCs s rnd dt).killerIndex = s.killerIndex := rfl

theorem UpdateCamera_GetPlayer (s : GameState) (dt : ℚ) :
    GetPlayer (UpdateCamera s dt) = GetPlayer s := by
  unfold GetPlayer
  rw [UpdateCamera_entities, UpdateCamera_playerIndex]

theorem UpdateTimer_GetPlayer (s : GameState) (dt : ℚ) :
    GetPlayer (UpdateTimer s dt) = GetPlayer s := by
  unfold GetPlayer
  rw [UpdateTimer_entities, UpdateTimer_playerIndex]

theorem CheckPlayerKillerCollision_GetPlayer (s : GameState) :
    GetPlayer (CheckPlayerKillerCollision s) = GetPlayer s := by
  unfold GetPlayer
  rw [CheckPlayerKillerCollision_entities, CheckPlayerKillerCollision_playerIndex]

theorem CheckPlayerExitCollision_GetPlayer (s : GameState) :
    GetPlayer (CheckPlayerExitCollision s) = GetPlayer s := by
  unfold GetPlayer
  rw [CheckPlayerExitCollision_entities, CheckPlayerExitCollision_playerIndex]

theorem UpdateTimer_zero (s : GameState) (dt : ℚ) (h : s.timer = 0) :
    (UpdateTimer s dt).timer = 0 := by
  simp only [UpdateTimer, h]
  norm_num
  exact h

/-- One flashlight update preserves the flashlight invariant for any
want-on intent and non-negative tick duration. -/
theorem flashInv_step (s : GameState) (w : Bool) (m : Vec) (dt : ℚ)
    (hdt : 0 ≤ dt) (hInv : flashInv s) : flashInv (UpdateFlashlight s w m dt) := by
  obtain ⟨hu, hc, himp⟩ := hInv
  unfold flashInv
  simp only [UpdateFlashlight]
  split_ifs <;> simp_all
  all_goals first
    | linarith
    | (constructor <;> intros <;> first | rfl | linarith)

/-- The flashlight invariant is preserved by any fold of flashlight
updates with non-negative tick durations. -/
theorem flashInv_run (m : Vec) (l : List (Bool × ℚ)) :
    ∀ s : GameState, flashInv s → nonnegFlashInputs l → flashInv (runFlashlight s m l) := by
  induction l with
  | nil => intro s h _; exact h
  | cons p rest ih =>
      intro s h hnn
      have h1 : 0 ≤ p.2 := hnn p (List.mem_cons_self p rest)
      have h2 : nonnegFlashInputs rest := fun q hq => hnn q (List.mem_cons_of_mem p hq)
      exact ih _ (flashInv_step s p.1 m p.2 h1 h) h2

theorem timerStaysZero_of_zero (s : GameState) (h : s.timer = 0) : timerStaysZero s := by
  intro dts
  induction dts generalizing s with
  | nil => exact h
  | cons d rest ih => exact ih _ (UpdateTimer_zero s d h)

theorem npcWanderStep_type (r : NPCRand) (dt : ℚ) (e : Entity) :
    (npcWanderStep r dt e).type = e.type := by
  simp only [npcWanderStep]
  split_ifs <;> rfl

theorem npcBounceX_type (e : Entity) : (npcBounceX e).type = e.type := by
  simp only [npcBounceX]
  split_ifs <;> rfl

theorem npcBounceY_type (e : Entity) : (npcBounceY e).type = e.type := by
  simp only [npcBounceY]
  split_ifs <;> rfl

theorem updateNPCEntity_type (r : NPCRand) (dt : ℚ) (e : Entity) :
    (updateNPCEntity r dt e).type = e.type := by
  simp only [updateNPCEntity]
  split_ifs with h1
  · rfl
  · rw [npcBounceY_type, npcBounceX_type,
      show (npcMoveStep dt (npcWanderStep r dt e)).type = (npcWanderStep r dt e).type from rfl,
      npcWanderStep_type]

/-- The horizontal bounce leaves the x coordinate inside the inset
bounds — clamped if it was outside, already inside otherwise — and
does not touch the y coordinate. -/
theorem npcBounceX_bounds (e : Entity) :
    50 ≤ (npcBounceX e).pos.x ∧ (npcBounceX e).pos.x ≤ MAP_WIDTH - 50 ∧
    (npcBounceX e).pos.y = e.pos.y := by
  have hW : (50:ℚ) ≤ MAP_WIDTH - 50 := by norm_num [MAP_WIDTH]
  simp only [npcBounceX]
  split_ifs with hx
  · exact ⟨(Clamp_le _ _ _ hW).1, (Clamp_le _ _ _ hW).2, rfl⟩
  · simp only [not_or, not_lt] at hx
    exact ⟨hx.1, hx.2, rfl⟩

/-- The vertical bounce leaves the y coordinate inside the inset
bounds and does not touch the x coordinate. -/
theorem npcBounceY_bounds (e : Entity) :
    50 ≤ (npcBounceY e).pos.y ∧ (npcBounceY e).pos.y ≤ MAP_HEIGHT - 50 ∧
    (npcBounceY e).pos.x = e.pos.x := by
  have hH : (50:ℚ) ≤ MAP_HEIGHT - 50 := by norm_num [MAP_HEIGHT]
  simp only [npcBounceY]
  split_ifs with hy
  · exact ⟨(Clamp_le _ _ _ hH).1, (Clamp_le _ _ _ hH).2, rfl⟩
  · simp only [not_or, not_lt] at hy
    exact ⟨hy.1, hy.2, rfl⟩

/-- One decoy-wander step keeps a decoy inside the inset arena bounds:
an axis that leaves the bounds is clamped back, and one that does not
is inside them by the very branch condition. -/
theorem updateNPCEntity_bounds (r : NPCRand) (dt : ℚ) (e : Entity)
    (h : decoyInBounds e) : decoyInBounds (updateNPCEntity r dt e) := by
  unfold updateNPCEntity
  split_ifs with h1
  · exact h
  · obtain ⟨hx1, hx2, hxy⟩ := npcBounceX_bounds (npcMoveStep dt (npcWanderStep r dt e))
    obtain ⟨hy1, hy2, hyx⟩ := npcBounceY_bounds (npcBounceX (npcMoveStep dt (npcWanderStep r dt e)))
    refine ⟨?_, ?_, hy1, hy2⟩
    · rw [hyx]
      exact hx1
    · rw [hyx]
      exact hx2

theorem updateNPCList_mem (rnd : ℕ → NPCRand) (dt : ℚ) :
    ∀ (k : ℕ) (es : List Entity) (e2 : Entity), e2 ∈ updateNPCList rnd dt k es →
      ∃ e ∈ es, ∃ i, e2 = updateNPCEntity (rnd i) dt e := by
  intro k es
  induction es generalizing k with
  | nil =>
      intro e2 h
      simp [updateNPCList] at h
  | cons e rest ih =>
      intro e2 h
      rcases List.mem_cons.mp h with h | h
      · exact ⟨e, List.mem_cons_self e rest, k, h⟩
      · obtain ⟨e0, he0, i, hi⟩ := ih (k + 1) e2 h
        exact ⟨e0, List.mem_cons_of_mem e he0, i, hi⟩

theorem UpdateNPCs_decoysInBounds (s : GameState) (rnd : ℕ → NPCRand) (dt : ℚ)
    (h : decoysInBounds s) : decoysInBounds (UpdateNPCs s rnd dt) := by
  intro e2 he2 ht2
  obtain ⟨e, he, i, hi⟩ := updateNPCList_mem rnd dt 0 s.entities e2 he2
  have hty : e.type = ENTITY_NPC := by
    rw [hi, updateNPCEntity_type] at ht2
    exact ht2
  rw [hi]
  exact updateNPCEntity_bounds _ dt e (h e he hty)

theorem runDecoyTicks_bounds (ticks : List ((ℕ → NPCRand) × ℚ)) :
    ∀ s : GameState, decoysInBounds s → decoysInBounds (runDecoyTicks s ticks) := by
  induction ticks with
  | nil => intro s h; exact h
  | cons t rest ih =>
      intro s h
      exact ih _ (UpdateNPCs_decoysInBounds s t.1 t.2 h)

theorem RandomFloat_mem (lo hi : ℚ) (g : ℕ) (hg : g ≤ 10000) (hlohi : lo ≤ hi) :
    lo ≤ RandomFloat lo hi g ∧ RandomFloat lo hi g ≤ hi := by
  unfold RandomFloat
  have h0 : (0:ℚ) ≤ (g:ℚ) / 10000 := by positivity
  have h1 : (g:ℚ) / 10000 ≤ 1 := by
    rw [div_le_one (by norm_num)]
    exact_mod_cast hg
  constructor
  · nlinarith
  · nlinarith

/-- Every decoy spawned by `InitGame` with in-contract random draws
lies inside the inset arena bounds. -/
theorem InitGame_decoysInBounds (s : GameState) (r : InitRand)
    (hr : boundedInitRand r) : decoysInBounds (InitGame s r) := by
  intro e he ht
  have he2 : e ∈ (CreateEntity ⟨MAP_WIDTH / 2, MAP_HEIGHT / 2⟩ ENTITY_PLAYER) ::
      (((List.range NPC_COUNT).map fun i =>
        let ri := r.npc i
        let npcPos : Vec := ⟨RandomFloat 50 (MAP_WIDTH - 50) ri.gx,
                             RandomFloat 50 (MAP_HEIGHT - 50) ri.gy⟩
        let npc := CreateEntity npcPos ENTITY_NPC
        { npc with wanderTimer := RandomFloat 0 NPC_WANDER_MAX_TIME ri.gt
                   velocity := ri.vel }) ++
      [CreateEntity r.killerPos ENTITY_KILLER,
       CreateEntity r.exitPos ENTITY_EXIT_DOOR]) := he
  rcases List.mem_cons.mp he2 with h1 | h2
  · rw [h1] at ht
    exact absurd ht (by simp [CreateEntity])
  rcases List.mem_append.mp h2 with h3 | h4
  · obtain ⟨i, _, hfi⟩ := List.mem_map.mp h3
    obtain ⟨hgx, hgy⟩ := hr i
    have hx := RandomFloat_mem 50 (MAP_WIDTH - 50) (r.npc i).gx hgx
      (by norm_num [MAP_WIDTH])
    have hy := RandomFloat_mem 50 (MAP_HEIGHT - 50) (r.npc i).gy hgy
      (by norm_num [MAP_HEIGHT])
    rw [← hfi]
    exact ⟨hx.1, hx.2, hy.1, hy.2⟩
  · rcases List.mem_cons.mp h4 with h5 | h6
    · rw [h5] at ht
      exact absurd ht (by simp [CreateEntity])
    rcases List.mem_cons.mp h6 with h7 | h8
    · rw [h7] at ht
      exact absurd ht (by simp [CreateEntity])
    · simp at h8

/-! ## Claim theorems -/

/-- C8: for every tick duration ≥ 0, if the survival timer reaches or
crosses 0 during the timer update, that update sets `gameWon = true`
and clamps the timer to exactly 0, after which the timer stays 0 under
every further sequence of timer updates; and a non-negative timer is
never driven negative by any update. -/
theorem timer_zero_crossing_sets_gameWon (s : GameState) (dt : ℚ) (hdt : 0 ≤ dt) :
    ((0 < s.timer ∧ s.timer ≤ dt) →
      (UpdateTimer s dt).timer = 0 ∧ (UpdateTimer s dt).gameWon = true ∧
      timerStaysZero (UpdateTimer s dt)) ∧
    (0 ≤ s.timer → 0 ≤ (UpdateTimer s dt).timer) := by
  constructor
  · rintro ⟨h1, h2⟩
    have key : (UpdateTimer s dt).timer = 0 ∧ (UpdateTimer s dt).gameWon = true := by
      simp only [UpdateTimer]
      rw [if_pos h1]
      rw [if_pos (show ({ s with timer := s.timer - dt } : GameState).timer ≤ 0 by
        show s.timer - dt ≤ 0
        linarith)]
      exact ⟨rfl, rfl⟩
    exact ⟨key.1, key.2, timerStaysZero_of_zero _ key.1⟩
  · intro h0
    simp only [UpdateTimer]
    split_ifs with a b
    · exact le_refl 0
    · have b2 : ¬ (s.timer - dt ≤ 0) := b
      show 0 ≤ s.timer - dt
      linarith
    · exact h0

/-- Instantiation of C8 at a concrete state with one second left and a
two-second tick. -/
theorem timer_zero_crossing_sets_gameWon_witness :
    (0:ℚ) ≤ 2 ∧
    (((0 < ({ c2State with timer := 1 } : GameState).timer ∧
        ({ c2State with timer := 1 } : GameState).timer ≤ 2) →
      (UpdateTimer { c2State with timer := 1 } 2).timer = 0 ∧
      (UpdateTimer { c2State with timer := 1 } 2).gameWon = true ∧
      timerStaysZero (UpdateTimer { c2State with timer := 1 } 2)) ∧
    (0 ≤ ({ c2State with timer := 1 } : GameState).timer →
      0 ≤ (UpdateTimer { c2State with timer := 1 } 2).timer)) :=
  ⟨by norm_num, timer_zero_crossing_sets_gameWon { c2State with timer := 1 } 2 (by norm_num)⟩

/-- C9: with the timer at 20 of 30 seconds (10 seconds elapsed) and the
killer AI in Normal, the killer speed computed by the killer update is
`70 * 1.05 ^ 10 * 1`, within 0.5 of 114. -/
theorem killer_speed_after_ten_seconds (s : GameState) (ht : s.timer = 20)
    (hst : s.killerAI.state = KILLER_STATE_NORMAL) :
    |killerCurrentSpeed s - 114| ≤ 1/2 := by
  unfold killerCurrentSpeed killerTimeSpeedMultiplier GetKillerSpeedMultiplier
  rw [ht, hst]
  rw [abs_le]
  norm_num [powQ, GAME_MAX_TIME, KILLER_BASE_SPEED]
  rw [show Int.toNat 10 = 10 from rfl]
  norm_num

/-- Instantiation of C9 at a concrete Normal-state round with the timer
at 20. -/
theorem killer_speed_after_ten_seconds_witness :
    ({ c2State with timer := 20 } : GameState).timer = 20 ∧
    ({ c2State with timer := 20 } : GameState).killerAI.state = KILLER_STATE_NORMAL ∧
    |killerCurrentSpeed { c2State with timer := 20 } - 114| ≤ 1/2 :=
  ⟨rfl, rfl, killer_speed_after_ten_seconds { c2State with timer := 20 } rfl rfl⟩

/-- C4: when the flashlight is on, available, and this tick's usage
accumulation reaches or crosses the maximum duration, the same tick's
flashlight update forces it off and unavailable, starts the cooldown at
its full value, and zeroes the usage accumulator. -/
theorem flashlight_timeout_same_tick (s : GameState) (m : Vec) (dt : ℚ)
    (_hon : s.flashlightOn = true) (hav : s.flashlightAvailable = true)
    (hmax : FLASHLIGHT_MAX_DURATION ≤ s.flashlightUsageTime + dt) :
    (UpdateFlashlight s true m dt).flashlightOn = false ∧
    (UpdateFlashlight s true m dt).flashlightAvailable = false ∧
    (UpdateFlashlight s true m dt).flashlightCooldownTime = FLASHLIGHT_COOLDOWN ∧
    (UpdateFlashlight s true m dt).flashlightUsageTime = 0 :=
  UpdateFlashlight_timeout s m dt hav hmax

/-- Instantiation of C4 at a concrete on-flashlight state 0.5 seconds
before the usage limit. -/
theorem flashlight_timeout_same_tick_witness :
    ({ c2State with flashlightOn := true, flashlightUsageTime := 5/2 } :
        GameState).flashlightOn = true ∧
    FLASHLIGHT_MAX_DURATION ≤ (5/2 : ℚ) + 1/2 ∧
    ((UpdateFlashlight { c2State with flashlightOn := true, flashlightUsageTime := 5/2 }
        true ⟨0, 0⟩ (1/2)).flashlightOn = false ∧
     (UpdateFlashlight { c2State with flashlightOn := true, flashlightUsageTime := 5/2 }
        true ⟨0, 0⟩ (1/2)).flashlightAvailable = false ∧
     (UpdateFlashlight { c2State with flashlightOn := true, flashlightUsageTime := 5/2 }
        true ⟨0, 0⟩ (1/2)).flashlightCooldownTime = FLASHLIGHT_COOLDOWN ∧
     (UpdateFlashlight { c2State with flashlightOn := true, flashlightUsageTime := 5/2 }
        true ⟨0, 0⟩ (1/2)).flashlightUsageTime = 0) :=
  ⟨rfl, by norm_num [FLASHLIGHT_MAX_DURATION],
    flashlight_timeout_same_tick _ _ _ rfl rfl (by norm_num [FLASHLIGHT_MAX_DURATION])⟩

/-- C6: from any killer AI state and any killer-player distance, a
flashlight on-edge (previous tick off, current tick on) makes
`UpdateKillerAI` enter Hunt with the on-time accumulator reset to 0;
the same call then accumulates this tick's duration on top of the
reset, so the accumulator ends the call at `0 + dt`, independent of its
previous value. -/
theorem flashlight_on_edge_enters_hunt (s : GameState) (dt : ℚ) (p : Entity)
    (hp : GetPlayer s = some p)
    (hwas : s.killerAI.wasFlashlightOn = false)
    (hon : s.flashlightOn = true) :
    (UpdateKillerAI s dt).killerAI.state = KILLER_STATE_HUNT ∧
    (UpdateKillerAI s dt).killerAI.flashlightOnTime = 0 + dt := by
  unfold UpdateKillerAI
  rw [hp]
  dsimp only
  simp [hon, hwas]

/-- Instantiation of C6 at a concrete Normal-state round (killer 900
units away) on the tick the flashlight turns on. -/
theorem flashlight_on_edge_enters_hunt_witness :
    GetPlayer { c2State with flashlightOn := true } = some playerEnt ∧
    ({ c2State with flashlightOn := true } : GameState).killerAI.wasFlashlightOn = false ∧
    ((UpdateKillerAI { c2State with flashlightOn := true } (1/60)).killerAI.state =
        KILLER_STATE_HUNT ∧
     (UpdateKillerAI { c2State with flashlightOn := true } (1/60)).killerAI.flashlightOnTime =
        0 + 1/60) :=
  ⟨rfl, rfl, flashlight_on_edge_enters_hunt { c2State with flashlightOn := true } (1/60)
    playerEnt rfl rfl rfl⟩

/-- C3: starting from the initial flashlight state, for every sequence
of want-on inputs with non-negative tick durations, the usage and
cooldown accumulators are never both positive: usage grows only while
on, cooldown only while unavailable, and every entry into cooldown
zeroes the usage accumulator (the invariant `flashInv` carries exactly
this). -/
theorem flashlight_accumulators_never_both_positive (s0 : GameState) (m : Vec)
    (l : List (Bool × ℚ)) (h0 : flashlightInitial s0) (hl : nonnegFlashInputs l) :
    ¬ (0 < (runFlashlight s0 m l).flashlightUsageTime ∧
       0 < (runFlashlight s0 m l).flashlightCooldownTime) := by
  have hInv : flashInv s0 := by
    obtain ⟨h1, h2, h3, h4⟩ := h0
    refine ⟨by rw [h2], by rw [h3], ?_⟩
    rw [h3]
    intro h
    linarith
  have h := flashInv_run m l s0 hInv hl
  rintro ⟨hu, hc⟩
  obtain ⟨_, _, himp⟩ := h
  obtain ⟨hz, _⟩ := himp hc
  rw [hz] at hu
  exact lt_irrefl 0 hu

/-- Instantiation of C3 on a fresh round with a hold-then-release input
sequence. -/
theorem flashlight_accumulators_never_both_positive_witness :
    flashlightInitial c2State ∧ nonnegFlashInputs [(true, 1), (false, 1)] ∧
    ¬ (0 < (runFlashlight c2State ⟨0, 0⟩ [(true, 1), (false, 1)]).flashlightUsageTime ∧
       0 < (runFlashlight c2State ⟨0, 0⟩ [(true, 1), (false, 1)]).flashlightCooldownTime) :=
  ⟨⟨rfl, rfl, rfl, rfl⟩, by norm_num [nonnegFlashInputs],
    flashlight_accumulators_never_both_positive c2State ⟨0, 0⟩ [(true, 1), (false, 1)]
      ⟨rfl, rfl, rfl, rfl⟩ (by norm_num [nonnegFlashInputs])⟩

/-- C2 counterexample: with W and S both held, the tick's player update
moves the player down by `PLAYER_SPEED * dt` — the position on that
axis is changed, not left unchanged, because the S branch overwrites
the W branch's velocity assignment. -/
theorem opposite_keys_produce_movement :
    playerPosition c2State = some ⟨1000, 1000⟩ ∧
    playerPosition (UpdatePlayer c2State wsInput (1/60)) = some ⟨1000, 3010/3⟩ ∧
    ((3010/3 : ℚ) ≠ 1000) := by
  refine ⟨rfl, ?_, by norm_num⟩
  unfold playerPosition
  rw [UpdatePlayer_GetPlayer c2State wsInput (1/60) playerEnt rfl rfl]
  simp only [Option.map_some']
  congr 1
  unfold movePlayer resolveInputVelocity
  norm_num [wsInput, NormalizeSafe, Vector2Length, Vector2Scale, sqrtQ, ClampPosition,
    Clamp, playerEnt, PLAYER_SPEED, MAP_WIDTH, MAP_HEIGHT]

/-- C2 (amended): each opposite key pair is resolved deterministically
by the later assignment winning on its axis — whenever S is down the
pre-normalization intent velocity has `y = 1` (S overrides W), and
whenever D is down it has `x = 1` (D overrides A), under any
combination of the other keys. When exactly one pair is held, the
normalized velocity is the positive unit vector on that axis and the
tick's player update moves the player by `PLAYER_SPEED * dt` in that
direction (clamped to the arena) — not a net-zero vector and not zero
movement. -/
theorem opposite_keys_later_key_overrides (s : GameState) (inp : Input) (dt : ℚ) (p : Entity)
    (hp : GetPlayer s = some p) (hpa : p.active = true) :
    (inp.down = true → (resolveInputVelocity inp).y = 1) ∧
    (inp.right = true → (resolveInputVelocity inp).x = 1) ∧
    (inp.up = true → inp.down = true → inp.left = false → inp.right = false →
      0 ≤ p.pos.x → p.pos.x ≤ MAP_WIDTH →
      GetPlayer (UpdatePlayer s inp dt) =
        some { p with velocity := ⟨0, 1⟩,
                      pos := ⟨p.pos.x, Clamp (p.pos.y + PLAYER_SPEED * dt) 0 MAP_HEIGHT⟩ }) ∧
    (inp.left = true → inp.right = true → inp.up = false → inp.down = false →
      0 ≤ p.pos.y → p.pos.y ≤ MAP_HEIGHT →
      GetPlayer (UpdatePlayer s inp dt) =
        some { p with velocity := ⟨1, 0⟩,
                      pos := ⟨Clamp (p.pos.x + PLAYER_SPEED * dt) 0 MAP_WIDTH, p.pos.y⟩ }) := by
  refine ⟨resolveInputVelocity_down inp, resolveInputVelocity_right inp, ?_, ?_⟩
  · intro hup hdn hl hr hx0 hx1
    rw [UpdatePlayer_GetPlayer s inp dt p hp hpa]
    congr 1
    unfold movePlayer resolveInputVelocity
    rw [hup, hdn, hl, hr]
    simp [NormalizeSafe_unitY, ClampPosition, Clamp_eq_self p.pos.x 0 MAP_WIDTH hx0 hx1]
  · intro hl hr hup hdn hy0 hy1
    rw [UpdatePlayer_GetPlayer s inp dt p hp hpa]
    congr 1
    unfold movePlayer resolveInputVelocity
    rw [hup, hdn, hl, hr]
    simp [NormalizeSafe_unitX, ClampPosition, Clamp_eq_self p.pos.y 0 MAP_HEIGHT hy0 hy1]

/-- Instantiation of the amended C2: the centred player holding W and S
for one 60 Hz tick moves down, and holding A and D moves right; both
resolved intent components are `+1`. -/
theorem opposite_keys_later_key_overrides_witness :
    GetPlayer c2State = some playerEnt ∧ playerEnt.active = true ∧
    (resolveInputVelocity wsInput).y = 1 ∧
    (resolveInputVelocity adInput).x = 1 ∧
    GetPlayer (UpdatePlayer c2State wsInput (1/60)) =
      some { playerEnt with
              velocity := ⟨0, 1⟩,
              pos := ⟨playerEnt.pos.x,
                      Clamp (playerEnt.pos.y + PLAYER_SPEED * (1/60)) 0 MAP_HEIGHT⟩ } ∧
    GetPlayer (UpdatePlayer c2State adInput (1/60)) =
      some { playerEnt with
              velocity := ⟨1, 0⟩,
              pos := ⟨Clamp (playerEnt.pos.x + PLAYER_SPEED * (1/60)) 0 MAP_WIDTH,
                      playerEnt.pos.y⟩ } :=
  ⟨rfl, rfl,
    (opposite_keys_later_key_overrides c2State wsInput (1/60) playerEnt rfl rfl).1 rfl,
    (opposite_keys_later_key_overrides c2State adInput (1/60) playerEnt rfl rfl).2.1 rfl,
    (opposite_keys_later_key_overrides c2State wsInput (1/60) playerEnt rfl rfl).2.2.1
      rfl rfl rfl rfl (by norm_num [playerEnt]) (by norm_num [playerEnt, MAP_WIDTH]),
    (opposite_keys_later_key_overrides c2State adInput (1/60) playerEnt rfl rfl).2.2.2
      rfl rfl rfl rfl (by norm_num [playerEnt]) (by norm_num [playerEnt, MAP_HEIGHT])⟩

/-- C1 (amended, frozen part): once a tick begins with either end flag
set and no restart is requested, the entity-advancing stage does not
run — the frame leaves both flags and every entity untouched. -/
theorem round_end_freezes_updates (s : GameState) (inp : Input) (rnd : FrameRand) (dt : ℚ)
    (hEnd : s.gameOver = true ∨ s.gameWon = true) (hnr : inp.restartPressed = false) :
    (GameplayFrame s inp rnd dt).gameOver = s.gameOver ∧
    (GameplayFrame s inp rnd dt).gameWon = s.gameWon ∧
    (GameplayFrame s inp rnd dt).entities = s.entities := by
  rw [GameplayFrame_ended s inp rnd dt hEnd hnr]
  refine ⟨?_, ?_, ?_⟩
  · rw [UpdateRestartDelay_gameOver, UpdateJumpscare_gameOver]
  · rw [UpdateRestartDelay_gameWon, UpdateJumpscare_gameWon]
  · rw [UpdateRestartDelay_entities, UpdateJumpscare_entities]

/-- Instantiation of the amended C1 on a lost round. -/
theorem round_end_freezes_updates_witness :
    (endedState.gameOver = true ∨ endedState.gameWon = true) ∧
    ((GameplayFrame endedState noInput frameRand0 (1/60)).gameOver = endedState.gameOver ∧
     (GameplayFrame endedState noInput frameRand0 (1/60)).gameWon = endedState.gameWon ∧
     (GameplayFrame endedState noInput frameRand0 (1/60)).entities = endedState.entities) :=
  ⟨Or.inl rfl, round_end_freezes_updates endedState noInput frameRand0 (1/60)
    (Or.inl rfl) rfl⟩

/-- C1 counterexample: from a round state with both flags clear, one
tick that both expires the survival timer and detects the player-killer
collision leaves `gameOver` and `gameWon` simultaneously true — the
round-active guard is checked once per frame, before the timer and
collision stages run. -/
theorem flags_both_set_in_one_tick :
    c1State.gameOver = false ∧ c1State.gameWon = false ∧
    (GameplayFrame c1State noInput frameRand0 30).gameOver = true ∧
    (GameplayFrame c1State noInput frameRand0 30).gameWon = true := by
  refine ⟨rfl, rfl, ?_⟩
  have e0 := GameplayFrame_active c1State noInput frameRand0 30 rfl rfl
  rw [show frameRand0.npcRand = npcRand0 from rfl] at e0
  have e1 : UpdateFlashlight c1State noInput.mouseDown noInput.mouseWorldPos 30 = c1State := by
    norm_num [UpdateFlashlight, c1State, mkRound, noInput]
  have e2 : UpdatePlayer c1State noInput 30 = c1State := by
    have hgp : GetPlayer c1State = some playerEnt := rfl
    unfold UpdatePlayer
    rw [hgp]
    norm_num [c1State, mkRound, noInput, setEntity, playerEnt, movePlayer,
      resolveInputVelocity, NormalizeSafe, Vector2Length, Vector2Scale, sqrtQ,
      ClampPosition, Clamp, MAP_WIDTH, MAP_HEIGHT, PLAYER_SPEED]
  have e3 : UpdateNPCs c1State npcRand0 30 = c1StateN := by
    norm_num [UpdateNPCs, updateNPCList, updateNPCEntity, npcWanderStep, npcMoveStep,
      npcBounceX, npcBounceY, c1State, c1StateN, mkRound,
      npcRand0, playerEnt, killerEntOnPlayer, exitEnt, npcEnt, npcEnt70,
      Clamp, MAP_WIDTH, MAP_HEIGHT, RandomFloat,
      NPC_WANDER_MIN_TIME, NPC_WANDER_MAX_TIME,
      player_ne_npc, killer_ne_npc, exit_ne_npc]
  have hk3 : GetKiller c1StateN = some killerEntOnPlayer := rfl
  have hp3 : GetPlayer c1StateN = some playerEnt := rfl
  have eAI : UpdateKillerAI c1StateN 30 = c1StateN := by
    unfold UpdateKillerAI
    rw [hp3]
    norm_num [c1StateN, c1State, mkRound]
  have e4 : UpdateKiller c1StateN 30 = c1StateN := by
    unfold UpdateKiller
    rw [hk3, hp3]
    dsimp only
    rw [if_neg (by norm_num [killerEntOnPlayer, playerEnt])]
    rw [eAI]
    norm_num [c1StateN, c1State, mkRound, setEntity, playerEnt, killerEntOnPlayer,
      Distance, DistanceSquared, sqrtQ, DirectionTo, Vector2Subtract, NormalizeSafe,
      Vector2Length, Vector2Scale, killerCurrentSpeed, killerTimeSpeedMultiplier, powQ,
      GetKillerSpeedMultiplier, GAME_MAX_TIME, KILLER_BASE_SPEED,
      KILLER_SEARCH_ARRIVAL_THRESHOLD, ClampPosition, Clamp, MAP_WIDTH, MAP_HEIGHT]
    rfl
  have e5 : UpdateCamera c1StateN 30 = c1StateN := by
    unfold UpdateCamera
    rw [hp3]
    norm_num [c1StateN, c1State, mkRound, baseCamera, playerEnt, Lerp, Clamp,
      CAMERA_SMOOTHING, MAP_WIDTH, MAP_HEIGHT]
  have e6 : UpdateTimer c1StateN 30 = c1StateT := by
    norm_num [UpdateTimer, c1StateT, c1StateN, c1State, mkRound, GAME_MAX_TIME]
  have e7 : CheckPlayerKillerCollision c1StateT = c1StateK := by
    have hpT : GetPlayer c1StateT = some playerEnt := rfl
    have hkT : GetKiller c1StateT = some killerEntOnPlayer := rfl
    unfold CheckPlayerKillerCollision
    rw [hpT, hkT]
    norm_num [c1StateK, c1StateT, c1StateN, c1State, mkRound, playerEnt,
      killerEntOnPlayer, CheckCollisionCircles, DistanceSquared,
      PLAYER_COLLISION_RADIUS, KILLER_COLLISION_RADIUS]
  have e8 : CheckPlayerExitCollision c1StateK = c1StateK := by
    have hpK : GetPlayer c1StateK = some playerEnt := rfl
    have hxK : GetExitDoor c1StateK = some exitEnt := rfl
    unfold CheckPlayerExitCollision
    rw [hpK, hxK]
    norm_num [c1StateK, c1StateT, c1StateN, c1State, mkRound, playerEnt, exitEnt,
      CheckCollisionPointRec, EXIT_DOOR_WIDTH, EXIT_DOOR_HEIGHT]
  rw [e0, e1, e2, e3, e4, e5, e6, e7, e8]
  exact ⟨rfl, rfl⟩

/-- C5: on an active-round tick that releases the flashlight (held last
tick, mouse button up now) while the killer AI is in Hunt, the frame
records as last-known position exactly the player position produced by
this tick's player-motion stage (`q`, the player entity right after
`UpdatePlayer`), the player does not move again within the tick, and
the AI ends the tick in Search unless the killer is already within the
arrival threshold of that snapshot (in which case the separately
specified Search-arrival rule fires in the same tick). -/
theorem hunt_off_edge_snapshots_player (s : GameState) (inp : Input) (rnd : FrameRand)
    (dt : ℚ) (p k q : Entity)
    (hgo : s.gameOver = false) (hgw : s.gameWon = false)
    (hp : GetPlayer s = some p) (hpa : p.active = true) (hpt : p.type = ENTITY_PLAYER)
    (hk : GetKiller s = some k) (hka : k.active = true) (hkt : k.type = ENTITY_KILLER)
    (hne : s.playerIndex ≠ s.killerIndex)
    (hst : s.killerAI.state = KILLER_STATE_HUNT)
    (hon : s.flashlightOn = true)
    (hwant : inp.mouseDown = false)
    (hq : GetPlayer (UpdatePlayer (UpdateFlashlight s inp.mouseDown inp.mouseWorldPos dt)
            inp dt) = some q) :
    (GameplayFrame s inp rnd dt).killerAI.lastKnownPlayerPos = q.pos ∧
    playerPosition (GameplayFrame s inp rnd dt) = some q.pos ∧
    (¬ Distance k.pos q.pos < KILLER_SEARCH_ARRIVAL_THRESHOLD →
      (GameplayFrame s inp rnd dt).killerAI.state = KILLER_STATE_SEARCH) := by
  rw [GameplayFrame_active s inp rnd dt hgo hgw]
  set s1 := UpdateFlashlight s inp.mouseDown inp.mouseWorldPos dt with hs1
  set s2 := UpdatePlayer s1 inp dt with hs2
  set s3 := UpdateNPCs s2 rnd.npcRand dt with hs3
  set s4 := UpdateKiller s3 dt with hs4
  set s5 := UpdateCamera s4 dt with hs5
  set s6 := UpdateTimer s5 dt with hs6
  set s7 := CheckPlayerKillerCollision s6 with hs7
  set s8 := CheckPlayerExitCollision s7 with hs8
  have hf1 : s1.flashlightOn = false := by
    rw [hs1, hwant]
    exact (UpdateFlashlight_release s inp.mouseWorldPos dt hon).1
  have hw1 : s1.killerAI.wasFlashlightOn = true := by
    rw [hs1, UpdateFlashlight_aiWas]
    exact hon
  have hstate1 : s1.killerAI.state = KILLER_STATE_HUNT := by
    rw [hs1, UpdateFlashlight_aiState]
    exact hst
  have hp1 : GetPlayer s1 = some p := by
    rw [hs1, UpdateFlashlight_GetPlayer]
    exact hp
  have hk1 : GetKiller s1 = some k := by
    rw [hs1, UpdateFlashlight_GetKiller]
    exact hk
  have hne1 : s1.playerIndex ≠ s1.killerIndex := by
    rw [hs1, UpdateFlashlight_playerIndex, UpdateFlashlight_killerIndex]
    exact hne
  have hq2 : GetPlayer s2 = some (movePlayer p inp dt) := by
    rw [hs2]
    exact UpdatePlayer_GetPlayer s1 inp dt p hp1 hpa
  have hqeq : movePlayer p inp dt = q := Option.some.inj (hq2.symm.trans hq)
  have hqt : q.type = ENTITY_PLAYER := by
    rw [← hqeq, movePlayer_type]
    exact hpt
  have hqa : q.active = true := by
    rw [← hqeq, movePlayer_active]
    exact hpa
  have hk2 : GetKiller s2 = some k := by
    rw [hs2, UpdatePlayer_GetKiller s1 inp dt hne1]
    exact hk1
  have hf2 : s2.flashlightOn = false := by
    rw [hs2, UpdatePlayer_flashlightOn]
    exact hf1
  have hw2 : s2.killerAI.wasFlashlightOn = true := by
    rw [hs2, UpdatePlayer_killerAI]
    exact hw1
  have hstate2 : s2.killerAI.state = KILLER_STATE_HUNT := by
    rw [hs2, UpdatePlayer_killerAI]
    exact hstate1
  have hne2 : s2.playerIndex ≠ s2.killerIndex := by
    rw [hs2, UpdatePlayer_playerIndex, UpdatePlayer_killerIndex]
    exact hne1
  have hp3 : GetPlayer s3 = some q := by
    rw [hs3]
    exact UpdateNPCs_GetPlayer s2 rnd.npcRand dt q hq (by rw [hqt]; exact player_ne_npc)
  have hk3 : GetKiller s3 = some k := by
    rw [hs3]
    exact UpdateNPCs_GetKiller s2 rnd.npcRand dt k hk2 (by rw [hkt]; exact killer_ne_npc)
  have hf3 : s3.flashlightOn = false := by
    rw [hs3, UpdateNPCs_flashlightOn]
    exact hf2
  have hw3 : s3.killerAI.wasFlashlightOn = true := by
    rw [hs3, UpdateNPCs_killerAI]
    exact hw2
  have hstate3 : s3.killerAI.state = KILLER_STATE_HUNT := by
    rw [hs3, UpdateNPCs_killerAI]
    exact hstate2
  have hne3 : s3.playerIndex ≠ s3.killerIndex := by
    rw [hs3, UpdateNPCs_playerIndex, UpdateNPCs_killerIndex]
    exact hne2
  obtain ⟨hlast, hsearch, hgp4, _, _, _, _⟩ :=
    UpdateKiller_offEdge s3 dt k q hk3 hp3 hka hqa hf3 hw3 hstate3 hne3
  rw [← hs4] at hlast hsearch hgp4
  refine ⟨?_, ?_, ?_⟩
  · rw [hs8, CheckPlayerExitCollision_killerAI, hs7, CheckPlayerKillerCollision_killerAI,
        hs6, UpdateTimer_killerAI, hs5, UpdateCamera_killerAI]
    exact hlast
  · unfold playerPosition
    rw [hs8, CheckPlayerExitCollision_GetPlayer, hs7, CheckPlayerKillerCollision_GetPlayer,
        hs6, UpdateTimer_GetPlayer, hs5, UpdateCamera_GetPlayer, hgp4, hp3]
    rfl
  · intro hfar
    rw [hs8, CheckPlayerExitCollision_killerAI, hs7, CheckPlayerKillerCollision_killerAI,
        hs6, UpdateTimer_killerAI, hs5, UpdateCamera_killerAI]
    exact hsearch hfar

/-- C10: if the flashlight usage limit is crossed during a tick while
the killer AI is in Hunt (button still held, flashlight on and
available), the flashlight update turns the light off before the killer
update runs, so that same tick's killer update observes an off-edge:
it snapshots the post-motion player position (`q`), ends the tick in
Search unless the killer is already within the arrival threshold, and
the whole frame — in particular the killer AI — is identical to the
frame in which the player had released the button manually. -/
theorem flashlight_timeout_same_as_release (s : GameState) (inp : Input) (rnd : FrameRand)
    (dt : ℚ) (p k q : Entity)
    (hgo : s.gameOver = false) (hgw : s.gameWon = false)
    (hp : GetPlayer s = some p) (hpa : p.active = true) (hpt : p.type = ENTITY_PLAYER)
    (hk : GetKiller s = some k) (hka : k.active = true) (hkt : k.type = ENTITY_KILLER)
    (hne : s.playerIndex ≠ s.killerIndex)
    (hst : s.killerAI.state = KILLER_STATE_HUNT)
    (hon : s.flashlightOn = true)
    (hav : s.flashlightAvailable = true)
    (hwant : inp.mouseDown = true)
    (hmax : FLASHLIGHT_MAX_DURATION ≤ s.flashlightUsageTime + dt)
    (hq : GetPlayer (UpdatePlayer (UpdateFlashlight s inp.mouseDown inp.mouseWorldPos dt)
            inp dt) = some q) :
    (GameplayFrame s inp rnd dt).killerAI.lastKnownPlayerPos = q.pos ∧
    playerPosition (GameplayFrame s inp rnd dt) = some q.pos ∧
    (¬ Distance k.pos q.pos < KILLER_SEARCH_ARRIVAL_THRESHOLD →
      (GameplayFrame s inp rnd dt).killerAI.state = KILLER_STATE_SEARCH) ∧
    (GameplayFrame s inp rnd dt).killerAI =
      (GameplayFrame s { inp with mouseDown := false } rnd dt).killerAI := by
  have hframe : GameplayFrame s inp rnd dt =
      GameplayFrame s { inp with mouseDown := false } rnd dt := by
    rw [GameplayFrame_active s inp rnd dt hgo hgw,
        GameplayFrame_active s { inp with mouseDown := false } rnd dt hgo hgw]
    dsimp only
    rw [hwant, UpdateFlashlight_timeout_eq_release s inp.mouseWorldPos dt hon hav hmax,
        UpdatePlayer_input_eq (UpdateFlashlight s false inp.mouseWorldPos dt) inp
          { inp with mouseDown := false } dt rfl rfl rfl rfl]
  refine ⟨?_, ?_, ?_, congrArg GameState.killerAI hframe⟩ <;>
  · rw [GameplayFrame_active s inp rnd dt hgo hgw]
    set s1 := UpdateFlashlight s inp.mouseDown inp.mouseWorldPos dt with hs1
    set s2 := UpdatePlayer s1 inp dt with hs2
    set s3 := UpdateNPCs s2 rnd.npcRand dt with hs3
    set s4 := UpdateKiller s3 dt with hs4
    set s5 := UpdateCamera s4 dt with hs5
    set s6 := UpdateTimer s5 dt with hs6
    set s7 := CheckPlayerKillerCollision s6 with hs7
    set s8 := CheckPlayerExitCollision s7 with hs8
    have hf1 : s1.flashlightOn = false := by
      rw [hs1, hwant]
      exact (UpdateFlashlight_timeout s inp.mouseWorldPos dt hav hmax).1
    have hw1 : s1.killerAI.wasFlashlightOn = true := by
      rw [hs1, UpdateFlashlight_aiWas]
      exact hon
    have hstate1 : s1.killerAI.state = KILLER_STATE_HUNT := by
      rw [hs1, UpdateFlashlight_aiState]
      exact hst
    have hp1 : GetPlayer s1 = some p := by
      rw [hs1, UpdateFlashlight_GetPlayer]
      exact hp
    have hk1 : GetKiller s1 = some k := by
      rw [hs1, UpdateFlashlight_GetKiller]
      exact hk
    have hne1 : s1.playerIndex ≠ s1.killerIndex := by
      rw [hs1, UpdateFlashlight_playerIndex, UpdateFlashlight_killerIndex]
      exact hne
    have hq2 : GetPlayer s2 = some (movePlayer p inp dt) := by
      rw [hs2]
      exact UpdatePlayer_GetPlayer s1 inp dt p hp1 hpa
    have hqeq : movePlayer p inp dt = q := Option.some.inj (hq2.symm.trans hq)
    have hqt : q.type = ENTITY_PLAYER := by
      rw [← hqeq, movePlayer_type]
      exact hpt
    have hqa : q.active = true := by
      rw [← hqeq, movePlayer_active]
      exact hpa
    have hk2 : GetKiller s2 = some k := by
      rw [hs2, UpdatePlayer_GetKiller s1 inp dt hne1]
      exact hk1
    have hf2 : s2.flashlightOn = false := by
      rw [hs2, UpdatePlayer_flashlightOn]
      exact hf1
    have hw2 : s2.killerAI.wasFlashlightOn = true := by
      rw [hs2, UpdatePlayer_killerAI]
      exact hw1
    have hstate2 : s2.killerAI.state = KILLER_STATE_HUNT := by
      rw [hs2, UpdatePlayer_killerAI]
      exact hstate1
    have hne2 : s2.playerIndex ≠ s2.killerIndex := by
      rw [hs2, UpdatePlayer_playerIndex, UpdatePlayer_killerIndex]
      exact hne1
    have hp3 : GetPlayer s3 = some q := by
      rw [hs3]
      exact UpdateNPCs_GetPlayer s2 rnd.npcRand dt q hq (by rw [hqt]; exact player_ne_npc)
    have hk3 : GetKiller s3 = some k := by
      rw [hs3]
      exact UpdateNPCs_GetKiller s2 rnd.npcRand dt k hk2 (by rw [hkt]; exact killer_ne_npc)
    have hf3 : s3.flashlightOn = false := by
      rw [hs3, UpdateNPCs_flashlightOn]
      exact hf2
    have hw3 : s3.killerAI.wasFlashlightOn = true := by
      rw [hs3, UpdateNPCs_killerAI]
      exact hw2
    have hstate3 : s3.killerAI.state = KILLER_STATE_HUNT := by
      rw [hs3, UpdateNPCs_killerAI]
      exact hstate2
    have hne3 : s3.playerIndex ≠ s3.killerIndex := by
      rw [hs3, UpdateNPCs_playerIndex, UpdateNPCs_killerIndex]
      exact hne2
    obtain ⟨hlast, hsearch, hgp4, _, _, _, _⟩ :=
      UpdateKiller_offEdge s3 dt k q hk3 hp3 hka hqa hf3 hw3 hstate3 hne3
    rw [← hs4] at hlast hsearch hgp4
    first
    | (rw [hs8, CheckPlayerExitCollision_killerAI, hs7, CheckPlayerKillerCollision_killerAI,
          hs6, UpdateTimer_killerAI, hs5, UpdateCamera_killerAI]
       first
       | exact hlast
       | (intro hfar; exact hsearch hfar))
    | (unfold playerPosition
       rw [hs8, CheckPlayerExitCollision_GetPlayer, hs7, CheckPlayerKillerCollision_GetPlayer,
          hs6, UpdateTimer_GetPlayer, hs5, UpdateCamera_GetPlayer, hgp4, hp3]
       rfl)
    | (intro hfar
       rw [hs8, CheckPlayerExitCollision_killerAI, hs7, CheckPlayerKillerCollision_killerAI,
          hs6, UpdateTimer_killerAI, hs5, UpdateCamera_killerAI]
       exact hsearch hfar)

/-- C7: every decoy spawned by round initialization stays within the
inset arena bounds `[50, MAP_WIDTH - 50] × [50, MAP_HEIGHT - 50]`
(inclusive) under any finite sequence of decoy-wander updates with
non-negative tick durations. -/
theorem decoys_stay_in_bounds (s0 : GameState) (r : InitRand)
    (ticks : List ((ℕ → NPCRand) × ℚ))
    (hr : boundedInitRand r) (_hdts : nonnegTicks ticks) :
    decoysInBounds (runDecoyTicks (InitGame s0 r) ticks) :=
  runDecoyTicks_bounds ticks (InitGame s0 r) (InitGame_decoysInBounds s0 r hr)

/-- Instantiation of C7 with the fixed init oracle and one one-second
wander tick. -/
theorem decoys_stay_in_bounds_witness :
    boundedInitRand initRand0 ∧ nonnegTicks [(npcRand0, 1)] ∧
    decoysInBounds (runDecoyTicks (InitGame c2State initRand0) [(npcRand0, 1)]) :=
  ⟨fun _ => ⟨Nat.zero_le _, Nat.zero_le _⟩, by norm_num [nonnegTicks],
    decoys_stay_in_bounds c2State initRand0 [(npcRand0, 1)]
      (fun _ => ⟨Nat.zero_le _, Nat.zero_le _⟩) (by norm_num [nonnegTicks])⟩

/-- Instantiation of C5: a centred player releases the flashlight while
the killer hunts from 900 units west; the frame snapshots the player's
(unmoved) position and enters Search. -/
theorem hunt_off_edge_snapshots_player_witness :
    c5State.killerAI.state = KILLER_STATE_HUNT ∧
    c5State.flashlightOn = true ∧
    ((GameplayFrame c5State noInput frameRand0 (1/60)).killerAI.lastKnownPlayerPos =
        playerEnt.pos ∧
     playerPosition (GameplayFrame c5State noInput frameRand0 (1/60)) = some playerEnt.pos ∧
     (¬ Distance killerEntFar.pos playerEnt.pos < KILLER_SEARCH_ARRIVAL_THRESHOLD →
        (GameplayFrame c5State noInput frameRand0 (1/60)).killerAI.state =
          KILLER_STATE_SEARCH)) := by
  refine ⟨rfl, rfl, ?_⟩
  have h1 : UpdateFlashlight c5State noInput.mouseDown noInput.mouseWorldPos (1/60) =
      { c5State with flashlightOn := false, flashlightAvailable := false,
                     flashlightCooldownTime := 3, flashlightUsageTime := 0 } := by
    norm_num [UpdateFlashlight, c5State, c2State, mkRound, noInput,
      FLASHLIGHT_COOLDOWN, FLASHLIGHT_MAX_DURATION]
  have h2 : movePlayer playerEnt noInput (1/60) = playerEnt := by
    norm_num [movePlayer, resolveInputVelocity, noInput, playerEnt, NormalizeSafe,
      Vector2Length, Vector2Scale,
      sqrtQ, ClampPosition, Clamp, MAP_WIDTH, MAP_HEIGHT, PLAYER_SPEED]
  have hq : GetPlayer (UpdatePlayer (UpdateFlashlight c5State noInput.mouseDown
      noInput.mouseWorldPos (1/60)) noInput (1/60)) = some playerEnt := by
    rw [h1]
    rw [UpdatePlayer_GetPlayer _ noInput (1/60) playerEnt (by rfl) (by rfl), h2]
  exact hunt_off_edge_snapshots_player c5State noInput frameRand0 (1/60)
    playerEnt killerEntFar playerEnt rfl rfl rfl rfl rfl rfl rfl rfl
    (by decide) rfl rfl rfl hq

/-- Instantiation of C10: the flashlight times out (usage 2.5 s + 1 s
tick ≥ 3 s) while held in Hunt; the frame snapshots the player's
position, enters Search, and equals the manual-release frame. -/
theorem flashlight_timeout_same_as_release_witness :
    c10State.killerAI.state = KILLER_STATE_HUNT ∧
    FLASHLIGHT_MAX_DURATION ≤ c10State.flashlightUsageTime + 1 ∧
    ((GameplayFrame c10State mouseInput frameRand0 1).killerAI.lastKnownPlayerPos =
        playerEnt.pos ∧
     playerPosition (GameplayFrame c10State mouseInput frameRand0 1) = some playerEnt.pos ∧
     (¬ Distance killerEntFar.pos playerEnt.pos < KILLER_SEARCH_ARRIVAL_THRESHOLD →
        (GameplayFrame c10State mouseInput frameRand0 1).killerAI.state =
          KILLER_STATE_SEARCH) ∧
     (GameplayFrame c10State mouseInput frameRand0 1).killerAI =
        (GameplayFrame c10State { mouseInput with mouseDown := false } frameRand0 1).killerAI) := by
  refine ⟨rfl, by norm_num [c10State, c2State, mkRound, FLASHLIGHT_MAX_DURATION], ?_⟩
  have h1 : UpdateFlashlight c10State mouseInput.mouseDown mouseInput.mouseWorldPos 1 =
      { c10State with flashlightOn := false, flashlightAvailable := false,
                      flashlightCooldownTime := 3, flashlightUsageTime := 0 } := by
    norm_num [UpdateFlashlight, c10State, c2State, mkRound, mouseInput,
      FLASHLIGHT_COOLDOWN, FLASHLIGHT_MAX_DURATION]
  have h2 : movePlayer playerEnt mouseInput 1 = playerEnt := by
    norm_num [movePlayer, resolveInputVelocity, mouseInput, playerEnt, NormalizeSafe,
      Vector2Length, Vector2Scale,
      sqrtQ, ClampPosition, Clamp, MAP_WIDTH, MAP_HEIGHT, PLAYER_SPEED]
  have hq : GetPlayer (UpdatePlayer (UpdateFlashlight c10State mouseInput.mouseDown
      mouseInput.mouseWorldPos 1) mouseInput 1) = some playerEnt := by
    rw [h1]
    rw [UpdatePlayer_GetPlayer _ mouseInput 1 playerEnt (by rfl) (by rfl), h2]
  exact flashlight_timeout_same_as_release c10State mouseInput frameRand0 1
    playerEnt killerEntFar playerEnt rfl rfl rfl rfl rfl rfl rfl rfl
    (by decide) rfl rfl rfl rfl
    (by norm_num [c10State, c2State, mkRound, FLASHLIGHT_MAX_DURATION]) hq

end Masquerade
